import Mathlib

/-!
Verification of the Sambo habit-tracking bot (`bot.py`).

The development shallowly embeds the pure logic of `bot.py`:

* `parseConsumptionInput` embeds `_parse_consumption_input` (bot.py:301-324);
* the spreadsheet is embedded as a `Sheet := List (List String)` with the
  gspread primitives `getCell` / `updateCell` / append, and the recorders
  `recordHabit` (bot.py:214-247), `recordConsumption` (bot.py:326-380),
  `recordLanguage` (bot.py:433-477) as state-passing functions;
* `getWeeklyStats` embeds `_get_weekly_stats` (bot.py:506-543);
* `generateBasicFeedback` / `generateFeedback` embed
  `_generate_basic_feedback` (bot.py:711-735) and the fallback logic of
  `_generate_feedback` (bot.py:624-696), with the external HTTP call
  modelled as an explicit argument;
* the calendar functions `pyWeekday`, `getWeekStart`, `getWeekNumber` embed
  Python `datetime.weekday`, `_get_week_start` (bot.py:144-151) and
  `_get_week_number` (bot.py:153-158) over a proleptic-Gregorian `Date`
  type, with day counting via the standard civil-from-days arithmetic.

Python strings are modelled over their ASCII fragment: `pyIsSpace` covers
the ASCII characters matched by `\s` and stripped by `str.strip`, and
digits are the ASCII decimal digits.  All inputs appearing in the claims
are ASCII, so the model is faithful on every input the theorems touch.
-/

namespace Sambo

/-! ## Python string primitives (ASCII fragment) -/

/-- ASCII whitespace as recognised by Python `str.strip` and regex `\s`. -/
def pyIsSpace (c : Char) : Bool :=
  c = ' ' || c = '\t' || c = '\n' || c = '\r' || c = '\x0b' || c = '\x0c'

/-- ASCII decimal digit, as matched by regex `\d` on ASCII input. -/
def pyIsDigit (c : Char) : Bool := '0' ≤ c && c ≤ '9'

/-- Python `str.strip`: drop leading and trailing whitespace. -/
def pyStrip (l : List Char) : List Char :=
  ((l.dropWhile pyIsSpace).reverse.dropWhile pyIsSpace).reverse

/-- Python `str.lower` on the ASCII fragment. -/
def pyLower (l : List Char) : List Char := l.map Char.toLower

/-- Numeric value of an ASCII digit string, Python `int` on digit input. -/
def digitsToNat (l : List Char) : Nat :=
  l.foldl (fun a c => 10 * a + (c.toNat - 48)) 0

/-- Python `s.isdigit()` on the ASCII fragment: nonempty and all digits. -/
def pyIsDigitStr (v : String) : Bool :=
  v ≠ "" && v.data.all pyIsDigit

/-- Python `str.strip` packaged on `String`. -/
def pyStripStr (v : String) : String := ⟨pyStrip v.data⟩

/-- Python `int(s)` for a string that passed `isdigit`. -/
def strToNat (v : String) : Nat := digitsToNat v.data

/-! ## The consumption-input grammar (`_parse_consumption_input`, bot.py:301-324)

The source strips and lowercases the text, matches the regular expression
`^([xyz]+)(?:\s+(\d+))?$`, picks the habit type by checking `'x' in letters`,
then `'y'`, then `'z'`, counts the occurrences of that letter only, and
reads the optional trailing integer (default 0).  Because the letter class
`[xyz]`, whitespace and digits are pairwise disjoint, the greedy regex is
equivalent to the span-based functional parser below. -/

/-- Membership in the regex character class `[xyz]`. -/
def isXYZ (c : Char) : Bool := c = 'x' || c = 'y' || c = 'z'

/-- Habit-type selection of `_parse_consumption_input`: the `if 'x' in letters /
elif 'y' / elif 'z' / else None` chain (bot.py:312-319). -/
def chooseType (letters : List Char) : Option Char :=
  if 'x' ∈ letters then some 'x'
  else if 'y' ∈ letters then some 'y'
  else if 'z' ∈ letters then some 'z'
  else none

/-- Regex match and extraction of `_parse_consumption_input` applied to the
already stripped and lowercased character list. The greedy ASCII regex
`^([xyz]+)(?:\s+(\d+))?$` is embedded by spans, which is equivalent because
the classes `[xyz]`, `\s` and `\d` are pairwise disjoint. -/
def parseConsumptionCore (s : List Char) : Option (Char × Nat × Nat) :=
  if s.takeWhile isXYZ = [] then none
  else
    (chooseType (s.takeWhile isXYZ)).bind fun t =>
      if s.dropWhile isXYZ = [] then
        some (t, (s.takeWhile isXYZ).count t, 0)
      else
        if (s.dropWhile isXYZ).takeWhile pyIsSpace = [] then none
        else if (s.dropWhile isXYZ).dropWhile pyIsSpace = [] then none
        else if ((s.dropWhile isXYZ).dropWhile pyIsSpace).all pyIsDigit then
          some (t, (s.takeWhile isXYZ).count t,
            digitsToNat ((s.dropWhile isXYZ).dropWhile pyIsSpace))
        else none

/-- Embedding of `_parse_consumption_input` (bot.py:301-324): strip,
lowercase, then match the consumption grammar. -/
def parseConsumptionInput (text : String) : Option (Char × Nat × Nat) :=
  parseConsumptionCore (pyLower (pyStrip text.data))

example : parseConsumptionInput "xx 150" = some ('x', 2, 150) := by decide
example : parseConsumptionInput "y" = some ('y', 1, 0) := by decide
example : parseConsumptionInput "xyz" = some ('x', 1, 0) := by decide
example : parseConsumptionInput "150" = none := by decide
example : parseConsumptionInput "abc" = none := by decide
example : parseConsumptionInput "  ZZz  42" = some ('z', 3, 42) := by decide
example : parseConsumptionInput "x5" = none := by decide

/-! ### Characterization of the consumption grammar -/

theorem takeWhile_all {p : Char → Bool} {l : List Char} (h : ∀ a ∈ l, p a = true) :
    l.takeWhile p = l ∧ l.dropWhile p = [] := by
  induction l with
  | nil => simp
  | cons b l ih =>
    have hb : p b = true := h b (by simp)
    have ih' := ih fun a ha => h a (by simp [ha])
    simp [List.takeWhile_cons, List.dropWhile_cons, hb, ih'.1, ih'.2]

theorem span_append_cons {p : Char → Bool} {l₁ : List Char} (a : Char) (l₂ : List Char)
    (h₁ : ∀ x ∈ l₁, p x = true) (h₂ : p a = false) :
    (l₁ ++ a :: l₂).takeWhile p = l₁ ∧ (l₁ ++ a :: l₂).dropWhile p = a :: l₂ := by
  induction l₁ with
  | nil => simp [List.takeWhile_cons, List.dropWhile_cons, h₂]
  | cons b l ih =>
    have hb : p b = true := h₁ b (by simp)
    have ih' := ih fun x hx => h₁ x (by simp [hx])
    simp [List.takeWhile_cons, List.dropWhile_cons, hb, ih'.1, ih'.2]

theorem isXYZ_cases {a : Char} (h : isXYZ a = true) : a = 'x' ∨ a = 'y' ∨ a = 'z' := by
  simpa [isXYZ, or_assoc] using h

theorem pyIsSpace_not_isXYZ {a : Char} (h : pyIsSpace a = true) : isXYZ a = false := by
  simp only [pyIsSpace, Bool.or_eq_true, decide_eq_true_eq, or_assoc] at h
  rcases h with rfl | rfl | rfl | rfl | rfl | rfl <;> decide

theorem pyIsDigit_not_pyIsSpace {a : Char} (h : pyIsDigit a = true) : pyIsSpace a = false := by
  cases hpy : pyIsSpace a
  · rfl
  · exfalso
    simp only [pyIsSpace, Bool.or_eq_true, decide_eq_true_eq, or_assoc] at hpy
    simp only [pyIsDigit, Bool.and_eq_true, decide_eq_true_eq] at h
    rcases hpy with rfl | rfl | rfl | rfl | rfl | rfl <;> exact absurd h (by decide)

theorem chooseType_eq (ls : List Char) (hne : ls ≠ []) (h : ∀ a ∈ ls, isXYZ a = true) :
    chooseType ls = some (if 'x' ∈ ls then 'x' else if 'y' ∈ ls then 'y' else 'z') := by
  by_cases hx : 'x' ∈ ls
  · simp [chooseType, hx]
  · by_cases hy : 'y' ∈ ls
    · simp [chooseType, hx, hy]
    · have hz : 'z' ∈ ls := by
        have hm := List.head_mem hne
        rcases isXYZ_cases (h _ hm) with h3 | h3 | h3
        · exact absurd (h3 ▸ hm) hx
        · exact absurd (h3 ▸ hm) hy
        · exact h3 ▸ hm
      simp [chooseType, hx, hy, hz]

/-- Full characterization of the regex-and-extraction core on an already
normalized character list. -/
theorem parseConsumptionCore_iff (s : List Char) (t : Char) (c k : Nat) :
    parseConsumptionCore s = some (t, c, k) ↔
      ∃ ls ws ds : List Char,
        s = ls ++ ws ++ ds
        ∧ ls ≠ [] ∧ (∀ a ∈ ls, isXYZ a = true)
        ∧ ((ws = [] ∧ ds = [] ∧ k = 0)
           ∨ (ws ≠ [] ∧ (∀ a ∈ ws, pyIsSpace a = true)
              ∧ ds ≠ [] ∧ (∀ a ∈ ds, pyIsDigit a = true) ∧ k = digitsToNat ds))
        ∧ t = (if 'x' ∈ ls then 'x' else if 'y' ∈ ls then 'y' else 'z')
        ∧ c = ls.count t := by
  constructor
  · intro h
    unfold parseConsumptionCore at h
    by_cases h0 : s.takeWhile isXYZ = []
    · rw [if_pos h0] at h; exact absurd h (by simp)
    rw [if_neg h0] at h
    have hall : ∀ a ∈ s.takeWhile isXYZ, isXYZ a = true := fun a ha =>
      List.mem_takeWhile_imp ha
    rw [chooseType_eq _ h0 hall, Option.some_bind] at h
    by_cases h1 : s.dropWhile isXYZ = []
    · rw [if_pos h1] at h
      obtain ⟨rfl, rfl, rfl⟩ : _ ∧ _ ∧ _ := by
        have := Option.some.inj h
        exact ⟨congrArg Prod.fst this, congrArg (fun q => q.2.1) this,
          (congrArg (fun q => q.2.2) this).symm⟩
      refine ⟨s.takeWhile isXYZ, [], [], ?_, h0, hall, Or.inl ⟨rfl, rfl, rfl⟩, rfl, rfl⟩
      simp only [List.append_nil]
      conv_lhs => rw [← List.takeWhile_append_dropWhile isXYZ s]
      rw [h1, List.append_nil]
    rw [if_neg h1] at h
    by_cases h2 : (s.dropWhile isXYZ).takeWhile pyIsSpace = []
    · rw [if_pos h2] at h; exact absurd h (by simp)
    rw [if_neg h2] at h
    by_cases h3 : (s.dropWhile isXYZ).dropWhile pyIsSpace = []
    · rw [if_pos h3] at h; exact absurd h (by simp)
    rw [if_neg h3] at h
    by_cases h4 : ((s.dropWhile isXYZ).dropWhile pyIsSpace).all pyIsDigit
    · rw [if_pos h4] at h
      obtain ⟨rfl, rfl, rfl⟩ : _ ∧ _ ∧ _ := by
        have := Option.some.inj h
        exact ⟨congrArg Prod.fst this, congrArg (fun q => q.2.1) this,
          (congrArg (fun q => q.2.2) this).symm⟩
      refine ⟨s.takeWhile isXYZ, (s.dropWhile isXYZ).takeWhile pyIsSpace,
        (s.dropWhile isXYZ).dropWhile pyIsSpace, ?_, h0, hall,
        Or.inr ⟨h2, fun a ha => List.mem_takeWhile_imp ha, h3,
          fun a ha => List.all_eq_true.mp h4 a ha, rfl⟩, rfl, rfl⟩
      rw [List.append_assoc, List.takeWhile_append_dropWhile,
        List.takeWhile_append_dropWhile]
    · rw [if_neg h4] at h; exact absurd h (by simp)
  · rintro ⟨ls, ws, ds, hn, hne, hxyz, hcase, ht, hc⟩
    rcases hcase with ⟨hws, hds, hk⟩ | ⟨hws, hspace, hds, hdig, hk⟩
    · subst hws; subst hds; subst hk
      simp only [List.append_nil] at hn
      subst hn
      obtain ⟨htake, hdrop⟩ := takeWhile_all hxyz
      unfold parseConsumptionCore
      rw [htake, hdrop, if_neg hne, chooseType_eq _ hne hxyz, Option.some_bind,
        if_pos rfl, ← ht, hc]
    · rcases ws with _ | ⟨w, ws₂⟩
      · exact absurd rfl hws
      rcases ds with _ | ⟨d, ds₂⟩
      · exact absurd rfl hds
      have hwspace : ∀ x ∈ w :: ws₂, pyIsSpace x = true := hspace
      have hw : pyIsSpace w = true := hwspace w (by simp)
      have hd : pyIsDigit d = true := hdig d (by simp)
      have hn' : s = ls ++ w :: (ws₂ ++ d :: ds₂) := by simp [hn]
      obtain ⟨htake, hdrop⟩ := span_append_cons (p := isXYZ) w (ws₂ ++ d :: ds₂)
        hxyz (pyIsSpace_not_isXYZ hw)
      rw [← hn'] at htake hdrop
      have hrest : w :: (ws₂ ++ d :: ds₂) = (w :: ws₂) ++ d :: ds₂ := by simp
      obtain ⟨htake2, hdrop2⟩ := span_append_cons (p := pyIsSpace) d ds₂
        hwspace (pyIsDigit_not_pyIsSpace hd)
      unfold parseConsumptionCore
      rw [htake, hdrop, if_neg hne, chooseType_eq _ hne hxyz, Option.some_bind,
        if_neg (by simp), hrest, htake2, hdrop2, if_neg (by simp),
        if_neg (by simp), if_pos (List.all_eq_true.mpr hdig), ← ht, hc, hk]

/-- C1: a stripped-and-lowercased input consisting of one or more letters
from x,y,z, optionally followed by whitespace and a decimal integer, parses
to (type, count, cost) with the type chosen in the checked order x, y, z,
the count counting only the chosen letter, and the cost defaulting to 0;
every other input yields no match; in particular "xx 150" parses to
('x', 2, 150), "y" to ('y', 1, 0), "xyz" to ('x', 1, 0), and "150" and
"abc" yield no match. -/
theorem c1_parse_consumption_grammar :
    parseConsumptionInput "xx 150" = some ('x', 2, 150)
    ∧ parseConsumptionInput "y" = some ('y', 1, 0)
    ∧ parseConsumptionInput "xyz" = some ('x', 1, 0)
    ∧ parseConsumptionInput "150" = none
    ∧ parseConsumptionInput "abc" = none
    ∧ ∀ (text : String) (t : Char) (c k : Nat),
        parseConsumptionInput text = some (t, c, k) ↔
          ∃ ls ws ds : List Char,
            pyLower (pyStrip text.data) = ls ++ ws ++ ds
            ∧ ls ≠ [] ∧ (∀ a ∈ ls, isXYZ a = true)
            ∧ ((ws = [] ∧ ds = [] ∧ k = 0)
               ∨ (ws ≠ [] ∧ (∀ a ∈ ws, pyIsSpace a = true)
                  ∧ ds ≠ [] ∧ (∀ a ∈ ds, pyIsDigit a = true) ∧ k = digitsToNat ds))
            ∧ t = (if 'x' ∈ ls then 'x' else if 'y' ∈ ls then 'y' else 'z')
            ∧ c = ls.count t := by
  refine ⟨by decide, by decide, by decide, by decide, by decide, ?_⟩
  intro text t c k
  exact parseConsumptionCore_iff (pyLower (pyStrip text.data)) t c k

/-- Witness for C1: the characterization applied at the concrete input
"xx 150". -/
theorem c1_parse_consumption_grammar_witness :
    parseConsumptionInput "xx 150" = some ('x', 2, 150) :=
  c1_parse_consumption_grammar.1

/-! ## Spreadsheet model

A worksheet is a list of rows of cell strings, row 1 first.  The gspread
calls used by `bot.py` are embedded as pure operations: `get_all_values`
is the sheet itself, `cell(r, c).value` is `getCell` (an empty string
standing for gspread's `None` on an empty cell — both are falsy in the
Python truthiness tests the code performs), `update_cell` is `updateCell`
and `append_row` appends.  All coordinates are 1-based, as in gspread. -/

abbrev Sheet := List (List String)

/-- Read a cell (1-based row and column); empty cells read as `""`. -/
def getCell (s : Sheet) (r c : Nat) : String :=
  (s.getD (r - 1) []).getD (c - 1) ""

/-- Write a single cell in a row, padding the row with blanks when the
column lies beyond its current length (gspread sheets are grids, so a
write to any coordinate succeeds). -/
def padSet (row : List String) (c : Nat) (v : String) : List String :=
  if c < row.length then row.set c v
  else row ++ List.replicate (c - row.length) "" ++ [v]

/-- Embedding of `worksheet.update_cell(r, c, v)` (1-based). -/
def updateCell (s : Sheet) (r c : Nat) (v : String) : Sheet :=
  s.set (r - 1) (padSet (s.getD (r - 1) []) (c - 1) v)

/-- First row (1-based index, starting at row 2) of the data rows that
satisfies the predicate; embeds the `for row_idx, row in
enumerate(all_rows[1:], start=2):` search loops of `bot.py`. -/
def findRowIdx (p : List String → Bool) : List (List String) → Nat → Option Nat
  | [], _ => none
  | r :: rest, i => if p r then some i else findRowIdx p rest (i + 1)

/-- Row-match test of `_get_activity_row` (bot.py:196-200):
`len(row) > 1 and row[0] == str(user_id) and row[1] == today_str`. -/
def activityRowMatch (u today : String) (row : List String) : Bool :=
  1 < row.length && row.getD 0 "" = u && row.getD 1 "" = today

/-- Embedding of `_get_activity_row` (bot.py:183-212): find the row keyed
by (user, date), or append a fresh row seeded with the key, blank
checkmark cells, the week number and a blank goals cell. -/
def getActivityRow (s : Sheet) (u today week : String) : Nat × Sheet :=
  match findRowIdx (activityRowMatch u today) (s.drop 1) 2 with
  | some i => (i, s)
  | none => (s.length + 1, s ++ [[u, today, "", "", "", "", "", week, ""]])

/-- Static catalogue `HABITS` (bot.py:31-37). -/
def HABITS (n : Nat) : Option String :=
  match n with
  | 1 => some "Prayer with first water"
  | 2 => some "Qi Gong routine"
  | 3 => some "Freestyling on the ball"
  | 4 => some "20 minute run and stretch"
  | 5 => some "Strengthening and stretching session"
  | _ => none

/-- Column map of `_record_habit` (bot.py:229): habit 1 → column 3, …,
habit 5 → column 7. -/
def colMap (n : Nat) : Nat :=
  match n with
  | 1 => 3
  | 2 => 4
  | 3 => 5
  | 4 => 6
  | 5 => 7
  | _ => 0

/-- Embedding of `_record_habit` (bot.py:214-247).  Returns the (success,
message) pair together with the updated sheet.  The `today` and `week`
strings stand for the Moscow-time date and week id computed by the code;
the store is assumed reachable (the exception paths merely log).  The
Python truthiness test `current_value and current_value.strip()` on the
read cell (with gspread's `None` read as `""`) is exactly
`v ≠ "" ∧ pyStripStr v ≠ ""`. -/
def recordHabit (s : Sheet) (u today week : String) (hid : Nat) :
    Bool × String × Sheet :=
  if HABITS hid = none then (false, "Invalid habit number. Use 1-5.", s)
  else if getCell (getActivityRow s u today week).2 (getActivityRow s u today week).1
            (colMap hid) ≠ ""
          ∧ pyStripStr (getCell (getActivityRow s u today week).2
            (getActivityRow s u today week).1 (colMap hid)) ≠ "" then
    (false, (HABITS hid).getD "" ++ " already recorded today",
      (getActivityRow s u today week).2)
  else
    (true, "✓ " ++ (HABITS hid).getD "" ++ " recorded!",
      updateCell (getActivityRow s u today week).2 (getActivityRow s u today week).1
        (colMap hid) "✓")

/-- Sequential recording of several habit ids for the same user and day
(each inbound message is handled one at a time, bot.py:806-828). -/
def recordHabitSeq (s : Sheet) (u today week : String) : List Nat → Sheet
  | [] => s
  | h :: rest => recordHabitSeq (recordHabit s u today week h).2.2 u today week rest

/-! ### List access lemmas -/

theorem getD_drop {α : Type} (l : List α) (n m : Nat) (d : α) :
    (l.drop n).getD m d = l.getD (n + m) d := by
  induction l generalizing n with
  | nil => simp
  | cons a t ih =>
    cases n with
    | zero => simp
    | succ n =>
      have harith : n + 1 + m = (n + m) + 1 := by omega
      rw [List.drop_succ_cons, harith, List.getD_cons_succ]
      exact ih n

theorem getD_set_self {α : Type} (l : List α) (n : Nat) (v d : α) (h : n < l.length) :
    (l.set n v).getD n d = v := by
  induction l generalizing n with
  | nil => simp at h
  | cons a t ih =>
    cases n with
    | zero => simp
    | succ n => simpa using ih n (by simpa using h)

theorem getD_set_ne {α : Type} (l : List α) (m n : Nat) (v d : α) (h : m ≠ n) :
    (l.set m v).getD n d = l.getD n d := by
  induction l generalizing m n with
  | nil => simp
  | cons a t ih =>
    cases m with
    | zero =>
      cases n with
      | zero => exact absurd rfl h
      | succ n => simp
    | succ m =>
      cases n with
      | zero => simp
      | succ n => simpa using ih m n (by omega)

theorem drop_one_set {α : Type} (l : List α) (n : Nat) (v : α) (h : 1 ≤ n) :
    (l.set n v).drop 1 = (l.drop 1).set (n - 1) v := by
  cases l with
  | nil => simp
  | cons a t =>
    cases n with
    | zero => omega
    | succ n => simp

/-! ### padSet and cell update lemmas -/

theorem getD_append_singleton {α : Type} (l : List α) (r : α) (d : α) :
    (l ++ [r]).getD l.length d = r := by
  rw [List.getD_eq_getElem?_getD, List.getElem?_append_right (le_refl _), Nat.sub_self]
  rfl

theorem getD_padSet_self (row : List String) (c : Nat) (v : String) :
    (padSet row c v).getD c "" = v := by
  unfold padSet
  by_cases h : c < row.length
  · rw [if_pos h]; exact getD_set_self row c v "" h
  · rw [if_neg h]
    rw [List.getD_eq_getElem?_getD, List.append_assoc,
      List.getElem?_append_right (by omega), ← List.getD_eq_getElem?_getD]
    have hfin := getD_append_singleton (List.replicate (c - row.length) ("" : String)) v ""
    rw [List.length_replicate] at hfin
    exact hfin

theorem getD_padSet_ne (row : List String) (c j : Nat) (v : String) (h : j ≠ c) :
    (padSet row c v).getD j "" = row.getD j "" := by
  unfold padSet
  by_cases hc : c < row.length
  · rw [if_pos hc]; exact getD_set_ne row c j v "" (fun e => h e.symm)
  · rw [if_neg hc]
    by_cases hj : j < row.length
    · rw [List.getD_eq_getElem?_getD, List.append_assoc, List.getElem?_append_left hj,
        ← List.getD_eq_getElem?_getD]
    · rw [List.getD_eq_getElem?_getD, List.append_assoc,
        List.getElem?_append_right (by omega)]
      rw [show row.getD j "" = "" from by
        rw [List.getD_eq_getElem?_getD, List.getElem?_eq_none (by omega)]; rfl]
      by_cases hjv : j - row.length < c - row.length
      · rw [List.getElem?_append_left (by simpa using hjv)]
        rw [List.getElem?_eq_getElem (by simpa using hjv)]
        simp
      · rw [List.getElem?_append_right (by simpa using hjv)]
        rw [List.getElem?_eq_none (by simp; omega)]
        rfl


theorem length_padSet_le (row : List String) (c : Nat) (v : String) :
    row.length ≤ (padSet row c v).length := by
  unfold padSet
  split
  · simp
  · simp

theorem length_updateCell (s : Sheet) (r c : Nat) (v : String) :
    (updateCell s r c v).length = s.length := by
  simp [updateCell]

theorem getCell_updateCell_self (s : Sheet) (r c : Nat) (v : String)
    (hr : r - 1 < s.length) :
    getCell (updateCell s r c v) r c = v := by
  unfold getCell updateCell
  rw [getD_set_self _ _ _ _ hr]
  exact getD_padSet_self _ _ _

theorem getCell_updateCell_row_ne (s : Sheet) (r c r' c' : Nat) (v : String)
    (hr : 1 ≤ r) (hr' : 1 ≤ r') (hne : r ≠ r') :
    getCell (updateCell s r c v) r' c' = getCell s r' c' := by
  unfold getCell updateCell
  rw [getD_set_ne _ _ _ _ _ (by omega)]

theorem getCell_updateCell_col_ne (s : Sheet) (r c c' : Nat) (v : String)
    (hc : 1 ≤ c) (hc' : 1 ≤ c') (hne : c ≠ c') :
    getCell (updateCell s r c v) r c' = getCell s r c' := by
  unfold getCell updateCell
  by_cases hr : r - 1 < s.length
  · rw [getD_set_self _ _ _ _ hr, getD_padSet_ne _ _ _ _ (by omega)]
  · rw [List.set_eq_of_length_le (by omega)]

/-! ### findRowIdx lemmas -/

theorem findRowIdx_some (p : List String → Bool) (l : List (List String)) (i j : Nat)
    (h : findRowIdx p l i = some j) :
    i ≤ j ∧ j - i < l.length ∧ p (l.getD (j - i) []) = true
      ∧ ∀ m < j - i, p (l.getD m []) = false := by
  induction l generalizing i with
  | nil => simp [findRowIdx] at h
  | cons r rest ih =>
    rw [findRowIdx] at h
    by_cases hp : p r = true
    · rw [if_pos hp] at h
      obtain rfl := Option.some.inj h
      exact ⟨le_refl _, by simp, by simpa using hp, by omega⟩
    · rw [if_neg hp] at h
      obtain ⟨h1, h2, h3, h4⟩ := ih (i + 1) h
      have hpf : p r = false := by revert hp; cases p r <;> simp
      refine ⟨by omega, by simp; omega, ?_, ?_⟩
      · have harith : j - i = (j - (i + 1)) + 1 := by omega
        rw [harith, List.getD_cons_succ]
        exact h3
      · intro m hm
        cases m with
        | zero => simpa using hpf
        | succ m =>
          rw [List.getD_cons_succ]
          exact h4 m (by omega)

theorem findRowIdx_intro (p : List String → Bool) (l : List (List String)) (i k : Nat)
    (hk : k < l.length) (hp : p (l.getD k []) = true)
    (hmin : ∀ m < k, p (l.getD m []) = false) :
    findRowIdx p l i = some (i + k) := by
  induction l generalizing i k with
  | nil => simp at hk
  | cons r rest ih =>
    rw [findRowIdx]
    cases k with
    | zero => rw [if_pos (by simpa using hp)]; simp
    | succ k =>
      have h0 : p r = false := by simpa using hmin 0 (by omega)
      rw [if_neg (by simp [h0])]
      have := ih (i + 1) k (by simpa using hk) (by simpa using hp)
        (fun m hm => by simpa using hmin (m + 1) (by omega))
      rw [this]
      congr 1
      omega

theorem findRowIdx_none (p : List String → Bool) (l : List (List String)) (i : Nat)
    (h : findRowIdx p l i = none) : ∀ m < l.length, p (l.getD m []) = false := by
  induction l generalizing i with
  | nil => simp
  | cons r rest ih =>
    rw [findRowIdx] at h
    by_cases hp : p r = true
    · rw [if_pos hp] at h; exact absurd h (by simp)
    · rw [if_neg hp] at h
      intro m hm
      cases m with
      | zero =>
        rw [List.getD_cons_zero]
        revert hp; cases p r <;> simp
      | succ m =>
        rw [List.getD_cons_succ]
        exact ih (i + 1) h m (by simpa using hm)

/-! ### Activity row lookup lemmas -/

/-- The activity search of `_get_activity_row` located row `n` (1-based). -/
def activityFound (s : Sheet) (u today : String) (n : Nat) : Prop :=
  findRowIdx (activityRowMatch u today) (s.drop 1) 2 = some n

theorem getActivityRow_of_found (s : Sheet) (u today week : String) (n : Nat)
    (hf : findRowIdx (activityRowMatch u today) (s.drop 1) 2 = some n) :
    getActivityRow s u today week = (n, s) := by
  unfold getActivityRow
  rw [hf]

theorem getActivityRow_of_none (s : Sheet) (u today week : String)
    (hf : findRowIdx (activityRowMatch u today) (s.drop 1) 2 = none) :
    getActivityRow s u today week
      = (s.length + 1, s ++ [[u, today, "", "", "", "", "", week, ""]]) := by
  unfold getActivityRow
  rw [hf]

theorem activityFound_lt (s : Sheet) (u today : String) (n : Nat)
    (h : activityFound s u today n) : 2 ≤ n ∧ n - 1 < s.length := by
  obtain ⟨h1, h2, _, _⟩ := findRowIdx_some _ _ _ _ h
  simp only [List.length_drop] at h2
  omega

theorem activityFound_row_props (s : Sheet) (u today : String) (n : Nat)
    (h : activityFound s u today n) :
    1 < (s.getD (n - 1) []).length ∧ (s.getD (n - 1) []).getD 0 "" = u
      ∧ (s.getD (n - 1) []).getD 1 "" = today := by
  obtain ⟨h1, h2, h3, _⟩ := findRowIdx_some _ _ _ _ h
  rw [getD_drop] at h3
  have harith : 1 + (n - 2) = n - 1 := by omega
  rw [harith] at h3
  simpa [activityRowMatch, Bool.and_eq_true, decide_eq_true_eq, and_assoc] using h3

theorem getActivityRow_found (s : Sheet) (u today week : String) (hs : 1 ≤ s.length) :
    activityFound (getActivityRow s u today week).2 u today
      (getActivityRow s u today week).1 := by
  cases hfind : findRowIdx (activityRowMatch u today) (s.drop 1) 2 with
  | some i =>
    rw [getActivityRow_of_found _ _ _ _ _ hfind]
    exact hfind
  | none =>
    rw [getActivityRow_of_none _ _ _ _ hfind]
    unfold activityFound
    have hdrop : ((s ++ [[u, today, "", "", "", "", "", week, ""]]).drop 1)
        = s.drop 1 ++ [[u, today, "", "", "", "", "", week, ""]] := by
      rw [List.drop_append_eq_append_drop]
      have h0 : 1 - s.length = 0 := by omega
      rw [h0, List.drop_zero]
    simp only [hdrop]
    have hlen : (s.drop 1).length = s.length - 1 := by simp
    have hres := findRowIdx_intro (activityRowMatch u today)
      (s.drop 1 ++ [[u, today, "", "", "", "", "", week, ""]]) 2 (s.length - 1)
      (by simp)
      (by
        rw [← hlen, getD_append_singleton]
        simp [activityRowMatch])
      (by
        intro m hm
        rw [List.getD_eq_getElem?_getD, List.getElem?_append_left (by omega),
          ← List.getD_eq_getElem?_getD]
        exact findRowIdx_none _ _ _ hfind m (by omega))
    rw [hres]
    congr 1
    omega

theorem activityRowMatch_padSet (u today : String) (row : List String) (c : Nat)
    (v : String) (hc : 2 ≤ c) (h : activityRowMatch u today row = true) :
    activityRowMatch u today (padSet row c v) = true := by
  simp only [activityRowMatch, Bool.and_eq_true, decide_eq_true_eq] at h ⊢
  obtain ⟨⟨hlen, h0⟩, hone⟩ := h
  have hle := length_padSet_le row c v
  refine ⟨⟨by omega, ?_⟩, ?_⟩
  · rw [getD_padSet_ne _ _ _ _ (by omega)]; exact h0
  · rw [getD_padSet_ne _ _ _ _ (by omega)]; exact hone

theorem activityFound_updateCell (s : Sheet) (u today : String) (n c : Nat) (v : String)
    (h : activityFound s u today n) (hc : 3 ≤ c) :
    activityFound (updateCell s n c v) u today n := by
  obtain ⟨h1, h2, h3, h4⟩ := findRowIdx_some _ _ _ _ h
  unfold activityFound updateCell
  rw [drop_one_set _ _ _ (by omega)]
  have hk2 : n - 1 - 1 = n - 2 := by omega
  rw [hk2]
  have hgetrow : s.getD (n - 1) [] = (s.drop 1).getD (n - 2) [] := by
    rw [getD_drop]
    congr 1
    omega
  have hres := findRowIdx_intro (activityRowMatch u today)
    ((s.drop 1).set (n - 2) (padSet (s.getD (n - 1) []) (c - 1) v)) 2 (n - 2)
    (by simpa using h2)
    (by
      rw [getD_set_self _ _ _ _ h2, hgetrow]
      exact activityRowMatch_padSet _ _ _ _ _ (by omega) h3)
    (by
      intro m hm
      rw [getD_set_ne _ _ _ _ _ (by omega)]
      exact h4 m hm)
  rw [hres]
  congr 1
  omega

/-! ### recordHabit behaviour -/

theorem HABITS_eq_some (hid : Nat) (h1 : 1 ≤ hid) (h5 : hid ≤ 5) :
    HABITS hid = some ((HABITS hid).getD "") := by
  interval_cases hid <;> rfl

theorem HABITS_ne_none (hid : Nat) (h1 : 1 ≤ hid) (h5 : hid ≤ 5) :
    ¬HABITS hid = none := by
  interval_cases hid <;> simp [HABITS]

theorem HABITS_some_bounds (j : Nat) (name : String) (h : HABITS j = some name) :
    1 ≤ j ∧ j ≤ 5 := by
  rcases j with _ | _ | _ | _ | _ | _ | j
  · exact absurd h (by simp [HABITS])
  · omega
  · omega
  · omega
  · omega
  · omega
  · exact absurd h (by simp [HABITS])

theorem colMap_bounds (hid : Nat) (h1 : 1 ≤ hid) (h5 : hid ≤ 5) :
    3 ≤ colMap hid ∧ colMap hid ≤ 7 := by
  interval_cases hid <;> simp [colMap]

theorem colMap_inj (a b : Nat) (ha1 : 1 ≤ a) (ha5 : a ≤ 5) (hb1 : 1 ≤ b) (hb5 : b ≤ 5)
    (hne : a ≠ b) : colMap a ≠ colMap b := by
  interval_cases a <;> interval_cases b <;> simp_all [colMap]

/-- Success path of `_record_habit`: an empty (or whitespace-only)
checkmark cell lets the write through. -/
theorem recordHabit_success (s : Sheet) (u today week : String) (hid : Nat)
    (h1 : 1 ≤ hid) (h5 : hid ≤ 5)
    (hempty : pyStripStr (getCell (getActivityRow s u today week).2
        (getActivityRow s u today week).1 (colMap hid)) = "") :
    recordHabit s u today week hid =
      (true, "✓ " ++ (HABITS hid).getD "" ++ " recorded!",
        updateCell (getActivityRow s u today week).2
          (getActivityRow s u today week).1 (colMap hid) "✓") := by
  unfold recordHabit
  rw [if_neg (HABITS_ne_none hid h1 h5), if_neg]
  intro hcontra
  exact hcontra.2 hempty

/-- Duplicate path of `_record_habit`: a non-blank checkmark cell on the
located row rejects the write, naming the habit, and leaves the sheet
unchanged. -/
theorem recordHabit_duplicate (s : Sheet) (u today week : String) (hid n : Nat)
    (h1 : 1 ≤ hid) (h5 : hid ≤ 5)
    (hf : activityFound s u today n)
    (hmark : getCell s n (colMap hid) = "✓") :
    recordHabit s u today week hid =
      (false, (HABITS hid).getD "" ++ " already recorded today", s) := by
  have hrow : getActivityRow s u today week = (n, s) :=
    getActivityRow_of_found _ _ _ _ _ hf
  unfold recordHabit
  rw [if_neg (HABITS_ne_none hid h1 h5), hrow]
  simp only
  rw [hmark, if_pos (by refine ⟨by decide, by decide⟩)]

/-- One recording of a different id for the same user and day preserves
both the located-row index and the written checkmark. -/
theorem recordHabit_preserves_mark (s : Sheet) (u today week : String) (hid j n : Nat)
    (h1 : 1 ≤ hid) (h5 : hid ≤ 5) (hj : j ≠ hid)
    (hf : activityFound s u today n)
    (hmark : getCell s n (colMap hid) = "✓") :
    activityFound (recordHabit s u today week j).2.2 u today n ∧
    getCell (recordHabit s u today week j).2.2 n (colMap hid) = "✓" := by
  by_cases hvalid : HABITS j = none
  · unfold recordHabit
    rw [if_pos hvalid]
    exact ⟨hf, hmark⟩
  · obtain ⟨name, hname⟩ : ∃ name, HABITS j = some name := by
      cases hHj : HABITS j
      · exact absurd hHj hvalid
      · exact ⟨_, rfl⟩
    obtain ⟨hj1, hj5⟩ := HABITS_some_bounds j name hname
    have hrow : getActivityRow s u today week = (n, s) :=
      getActivityRow_of_found _ _ _ _ _ hf
    obtain ⟨hn2, hnlt⟩ := activityFound_lt _ _ _ _ hf
    have hcolj := colMap_bounds j hj1 hj5
    have hcolh := colMap_bounds hid h1 h5
    have hcne : colMap j ≠ colMap hid := colMap_inj j hid hj1 hj5 h1 h5 hj
    unfold recordHabit
    rw [if_neg hvalid, hrow]
    simp only
    by_cases hdup : getCell s n (colMap j) ≠ "" ∧ pyStripStr (getCell s n (colMap j)) ≠ ""
    · rw [if_pos hdup]
      exact ⟨hf, hmark⟩
    · rw [if_neg hdup]
      refine ⟨activityFound_updateCell _ _ _ _ _ _ hf (by omega), ?_⟩
      rw [getCell_updateCell_col_ne _ _ _ _ _ (by omega) (by omega) hcne]
      exact hmark

/-- Any sequence of recordings of other ids preserves the located row and
the checkmark. -/
theorem recordHabitSeq_preserves_mark (u today week : String) (hid n : Nat)
    (h1 : 1 ≤ hid) (h5 : hid ≤ 5) (ids : List Nat) :
    ∀ s : Sheet, (∀ i ∈ ids, i ≠ hid) →
    activityFound s u today n →
    getCell s n (colMap hid) = "✓" →
    activityFound (recordHabitSeq s u today week ids) u today n ∧
    getCell (recordHabitSeq s u today week ids) n (colMap hid) = "✓" := by
  induction ids with
  | nil => exact fun s _ hf hm => ⟨hf, hm⟩
  | cons j rest ih =>
    intro s hne hf hm
    obtain ⟨hf', hm'⟩ := recordHabit_preserves_mark s u today week hid j n h1 h5
      (hne j (by simp)) hf hm
    exact ih _ (fun i hi => hne i (by simp [hi])) hf' hm'

/-- C2: for every activity habit id 1–5 and every user, recording succeeds
when the checkmark cell for (user, today) is blank (or whitespace-only),
and recording the same id again the same day fails with the message
"<habit name> already recorded today" while leaving the sheet unchanged —
regardless of which other habit ids were recorded for that user in
between, since each id maps to its own fixed column. -/
theorem c2_activity_duplicate_guard (s : Sheet) (u today week : String) (hid : Nat)
    (h1 : 1 ≤ hid) (h5 : hid ≤ 5) (hs : 1 ≤ s.length)
    (hempty : pyStripStr (getCell (getActivityRow s u today week).2
        (getActivityRow s u today week).1 (colMap hid)) = "") :
    (recordHabit s u today week hid).1 = true ∧
    ∀ ids : List Nat, (∀ i ∈ ids, i ≠ hid) →
      recordHabit (recordHabitSeq (recordHabit s u today week hid).2.2 u today week ids)
          u today week hid
        = (false, (HABITS hid).getD "" ++ " already recorded today",
            recordHabitSeq (recordHabit s u today week hid).2.2 u today week ids) := by
  have hsucc := recordHabit_success s u today week hid h1 h5 hempty
  constructor
  · rw [hsucc]
  · intro ids hne
    have hf : activityFound (getActivityRow s u today week).2 u today
        (getActivityRow s u today week).1 := getActivityRow_found s u today week hs
    obtain ⟨hn2, hnlt⟩ := activityFound_lt _ _ _ _ hf
    have hcol := colMap_bounds hid h1 h5
    have hf₂ : activityFound (recordHabit s u today week hid).2.2 u today
        (getActivityRow s u today week).1 := by
      rw [hsucc]
      exact activityFound_updateCell _ _ _ _ _ _ hf (by omega)
    have hm₂ : getCell (recordHabit s u today week hid).2.2
        (getActivityRow s u today week).1 (colMap hid) = "✓" := by
      rw [hsucc]
      exact getCell_updateCell_self _ _ _ _ hnlt
    obtain ⟨hf₃, hm₃⟩ := recordHabitSeq_preserves_mark u today week hid
      (getActivityRow s u today week).1 h1 h5 ids
      (recordHabit s u today week hid).2.2 hne hf₂ hm₂
    exact recordHabit_duplicate _ u today week hid _ h1 h5 hf₃ hm₃

/-- Witness for C2: habit 2 on a fresh sheet with the standard header row;
habits 1 and 3 are recorded in between. -/
theorem c2_activity_duplicate_guard_witness :
    (recordHabit [["User ID", "Date", "Prayer", "Qi Gong", "Ball", "Run/Stretch",
        "Strength/Stretch", "Week Number", "Goals"]]
        "42" "2024-01-01" "2024-01-01" 2).1 = true ∧
    recordHabit (recordHabitSeq (recordHabit [["User ID", "Date", "Prayer", "Qi Gong",
          "Ball", "Run/Stretch", "Strength/Stretch", "Week Number", "Goals"]]
          "42" "2024-01-01" "2024-01-01" 2).2.2 "42" "2024-01-01" "2024-01-01" [1, 3])
        "42" "2024-01-01" "2024-01-01" 2
      = (false, (HABITS 2).getD "" ++ " already recorded today",
          recordHabitSeq (recordHabit [["User ID", "Date", "Prayer", "Qi Gong",
            "Ball", "Run/Stretch", "Strength/Stretch", "Week Number", "Goals"]]
            "42" "2024-01-01" "2024-01-01" 2).2.2 "42" "2024-01-01" "2024-01-01" [1, 3]) := by
  have h := c2_activity_duplicate_guard
    [["User ID", "Date", "Prayer", "Qi Gong", "Ball", "Run/Stretch",
      "Strength/Stretch", "Week Number", "Goals"]]
    "42" "2024-01-01" "2024-01-01" 2 (by decide) (by decide) (by decide) (by decide)
  exact ⟨h.1, h.2 [1, 3] (by decide)⟩

/-- C6: on the success path of an activity recording (blank checkmark
cell), the operation writes the checkmark, the row's date cell holds
today, and the confirmation message contains the habit's display name. -/
theorem c6_record_habit_success_effects (s : Sheet) (u today week : String) (hid : Nat)
    (h1 : 1 ≤ hid) (h5 : hid ≤ 5) (hs : 1 ≤ s.length)
    (hempty : pyStripStr (getCell (getActivityRow s u today week).2
        (getActivityRow s u today week).1 (colMap hid)) = "") :
    (recordHabit s u today week hid).1 = true
    ∧ getCell (recordHabit s u today week hid).2.2
        (getActivityRow s u today week).1 (colMap hid) = "✓"
    ∧ getCell (recordHabit s u today week hid).2.2
        (getActivityRow s u today week).1 2 = today
    ∧ ∃ pre post : String,
        (recordHabit s u today week hid).2.1 = pre ++ (HABITS hid).getD "" ++ post := by
  have hsucc := recordHabit_success s u today week hid h1 h5 hempty
  have hf : activityFound (getActivityRow s u today week).2 u today
      (getActivityRow s u today week).1 := getActivityRow_found s u today week hs
  obtain ⟨hn2, hnlt⟩ := activityFound_lt _ _ _ _ hf
  have hcol := colMap_bounds hid h1 h5
  refine ⟨by rw [hsucc], ?_, ?_, ?_⟩
  · rw [hsucc]
    exact getCell_updateCell_self _ _ _ _ hnlt
  · rw [hsucc]
    simp only
    rw [getCell_updateCell_col_ne _ _ _ _ _ (by omega) (by omega) (by omega)]
    obtain ⟨_, _, hdate⟩ := activityFound_row_props _ _ _ _ hf
    exact hdate
  · exact ⟨"✓ ", " recorded!", by rw [hsucc]⟩

/-- Witness for C6: habit 4 recorded for a fresh user on a header-only
sheet. -/
theorem c6_record_habit_success_effects_witness :
    (recordHabit [["User ID", "Date", "Prayer", "Qi Gong", "Ball", "Run/Stretch",
        "Strength/Stretch", "Week Number", "Goals"]]
        "7" "2024-03-08" "2024-03-04" 4).1 = true
    ∧ getCell (recordHabit [["User ID", "Date", "Prayer", "Qi Gong", "Ball",
        "Run/Stretch", "Strength/Stretch", "Week Number", "Goals"]]
        "7" "2024-03-08" "2024-03-04" 4).2.2
        (getActivityRow [["User ID", "Date", "Prayer", "Qi Gong", "Ball",
          "Run/Stretch", "Strength/Stretch", "Week Number", "Goals"]]
          "7" "2024-03-08" "2024-03-04").1 (colMap 4) = "✓"
    ∧ getCell (recordHabit [["User ID", "Date", "Prayer", "Qi Gong", "Ball",
        "Run/Stretch", "Strength/Stretch", "Week Number", "Goals"]]
        "7" "2024-03-08" "2024-03-04" 4).2.2
        (getActivityRow [["User ID", "Date", "Prayer", "Qi Gong", "Ball",
          "Run/Stretch", "Strength/Stretch", "Week Number", "Goals"]]
          "7" "2024-03-08" "2024-03-04").1 2 = "2024-03-08"
    ∧ ∃ pre post : String,
        (recordHabit [["User ID", "Date", "Prayer", "Qi Gong", "Ball", "Run/Stretch",
          "Strength/Stretch", "Week Number", "Goals"]]
          "7" "2024-03-08" "2024-03-04" 4).2.1 = pre ++ (HABITS 4).getD "" ++ post :=
  c6_record_habit_success_effects
    [["User ID", "Date", "Prayer", "Qi Gong", "Ball", "Run/Stretch",
      "Strength/Stretch", "Week Number", "Goals"]]
    "7" "2024-03-08" "2024-03-04" 4 (by decide) (by decide) (by decide) (by decide)

/-! ## Consumption sheet (`_get_consumption_row`, `_record_consumption`) -/

/-- Row-match test of `_get_consumption_row` (bot.py:285-289):
`len(row) > 2 and row[0] == str(user_id) and row[1] == today_str and
row[2] == week_number`. -/
def consumptionRowMatch (u today week : String) (row : List String) : Bool :=
  2 < row.length && row.getD 0 "" = u && row.getD 1 "" = today && row.getD 2 "" = week

/-- Embedding of `_get_consumption_row` (bot.py:272-299). -/
def getConsumptionRow (s : Sheet) (u today week : String) : Nat × Sheet :=
  match findRowIdx (consumptionRowMatch u today week) (s.drop 1) 2 with
  | some i => (i, s)
  | none => (s.length + 1, s ++ [[u, today, week, "", "", "", "", "", ""]])

/-- Static catalogue `CONSUMPTION_HABITS` (bot.py:43-47), keyed by the
letters x, y, z that the recorder passes in. -/
def CONSUMPTION_HABITS (t : Char) : String :=
  if t = 'x' then "Coffee" else if t = 'y' then "Sugary food" else "Flour-based food"

/-- Column pair (count, cost) of `_record_consumption` (bot.py:345-350). -/
def consumptionCols (t : Char) : Nat × Nat :=
  if t = 'x' then (4, 5) else if t = 'y' then (6, 7) else (8, 9)

/-- Cell read of `_record_consumption` (bot.py:352-353): gspread `None`
(modelled `""`) is replaced by `"0"`. -/
def cellOrZero (s : Sheet) (r c : Nat) : String :=
  if getCell s r c = "" then "0" else getCell s r c

/-- Numeric cell read of `_record_consumption` (bot.py:352-356):
`int(v) if v.isdigit() else 0` applied to the `or "0"` default. -/
def parsedCellNum (s : Sheet) (r c : Nat) : Nat :=
  if pyIsDigitStr (cellOrZero s r c) then strToNat (cellOrZero s r c) else 0

/-- Embedding of `_record_consumption` (bot.py:326-380).  The parse-check
runs before any row lookup, exactly as in the source; the cost cell is
written only when the parsed cost is positive (bot.py:362-363). -/
def recordConsumption (s : Sheet) (u today week : String) (text : String) :
    Bool × String × Sheet :=
  match parseConsumptionInput text with
  | none => (false, "Invalid format. Use: 'x', 'xxx', 'xx 150', 'y 75', 'zzz 200'", s)
  | some (t, count, cost) =>
    let rowNum := (getConsumptionRow s u today week).1
    let s₁ := (getConsumptionRow s u today week).2
    let countCol := (consumptionCols t).1
    let costCol := (consumptionCols t).2
    let newCount := parsedCellNum s₁ rowNum countCol + count
    let newCost := parsedCellNum s₁ rowNum costCol + cost
    let s₂ := updateCell s₁ rowNum countCol (toString newCount)
    let s₃ := if 0 < cost then updateCell s₂ rowNum costCol (toString newCost) else s₂
    (true,
      "✓ " ++ CONSUMPTION_HABITS t ++ ": +" ++ toString count ++ " dose(s)"
        ++ (if 0 < cost then ", +" ++ toString cost ++ " руб" else "")
        ++ "\nToday's total: " ++ toString newCount ++ " dose(s)"
        ++ (if 0 < newCost then ", " ++ toString newCost ++ " руб" else ""),
      s₃)

/-- The consumption search of `_get_consumption_row` located row `n`. -/
def consumptionFound (s : Sheet) (u today week : String) (n : Nat) : Prop :=
  findRowIdx (consumptionRowMatch u today week) (s.drop 1) 2 = some n

theorem getConsumptionRow_of_found (s : Sheet) (u today week : String) (n : Nat)
    (hf : findRowIdx (consumptionRowMatch u today week) (s.drop 1) 2 = some n) :
    getConsumptionRow s u today week = (n, s) := by
  unfold getConsumptionRow
  rw [hf]

theorem getConsumptionRow_of_none (s : Sheet) (u today week : String)
    (hf : findRowIdx (consumptionRowMatch u today week) (s.drop 1) 2 = none) :
    getConsumptionRow s u today week
      = (s.length + 1, s ++ [[u, today, week, "", "", "", "", "", ""]]) := by
  unfold getConsumptionRow
  rw [hf]

theorem consumptionFound_lt (s : Sheet) (u today week : String) (n : Nat)
    (h : consumptionFound s u today week n) : 2 ≤ n ∧ n - 1 < s.length := by
  obtain ⟨h1, h2, _, _⟩ := findRowIdx_some _ _ _ _ h
  simp only [List.length_drop] at h2
  omega

theorem getConsumptionRow_found (s : Sheet) (u today week : String) (hs : 1 ≤ s.length) :
    consumptionFound (getConsumptionRow s u today week).2 u today week
      (getConsumptionRow s u today week).1 := by
  cases hfind : findRowIdx (consumptionRowMatch u today week) (s.drop 1) 2 with
  | some i =>
    rw [getConsumptionRow_of_found _ _ _ _ _ hfind]
    exact hfind
  | none =>
    rw [getConsumptionRow_of_none _ _ _ _ hfind]
    unfold consumptionFound
    have hdrop : ((s ++ [[u, today, week, "", "", "", "", "", ""]]).drop 1)
        = s.drop 1 ++ [[u, today, week, "", "", "", "", "", ""]] := by
      rw [List.drop_append_eq_append_drop]
      have h0 : 1 - s.length = 0 := by omega
      rw [h0, List.drop_zero]
    simp only [hdrop]
    have hlen : (s.drop 1).length = s.length - 1 := by simp
    have hres := findRowIdx_intro (consumptionRowMatch u today week)
      (s.drop 1 ++ [[u, today, week, "", "", "", "", "", ""]]) 2 (s.length - 1)
      (by simp)
      (by
        rw [← hlen, getD_append_singleton]
        simp [consumptionRowMatch])
      (by
        intro m hm
        rw [List.getD_eq_getElem?_getD, List.getElem?_append_left (by omega),
          ← List.getD_eq_getElem?_getD]
        exact findRowIdx_none _ _ _ hfind m (by omega))
    rw [hres]
    congr 1
    omega

theorem consumptionCols_spec (t : Char) :
    (consumptionCols t).1 ≠ (consumptionCols t).2
    ∧ 1 ≤ (consumptionCols t).1 ∧ 1 ≤ (consumptionCols t).2 := by
  unfold consumptionCols
  split_ifs <;> simp

/-- Reduction of `recordConsumption` on a successfully parsed input. -/
theorem recordConsumption_parsed (s : Sheet) (u today week text : String)
    (t : Char) (count cost : Nat)
    (hparse : parseConsumptionInput text = some (t, count, cost)) :
    recordConsumption s u today week text =
      (true,
        "✓ " ++ CONSUMPTION_HABITS t ++ ": +" ++ toString count ++ " dose(s)"
          ++ (if 0 < cost then ", +" ++ toString cost ++ " руб" else "")
          ++ "\nToday's total: "
          ++ toString (parsedCellNum (getConsumptionRow s u today week).2
              (getConsumptionRow s u today week).1 (consumptionCols t).1 + count)
          ++ " dose(s)"
          ++ (if 0 < parsedCellNum (getConsumptionRow s u today week).2
                (getConsumptionRow s u today week).1 (consumptionCols t).2 + cost
              then ", " ++ toString (parsedCellNum (getConsumptionRow s u today week).2
                (getConsumptionRow s u today week).1 (consumptionCols t).2 + cost)
                ++ " руб"
              else ""),
        if 0 < cost then
          updateCell (updateCell (getConsumptionRow s u today week).2
              (getConsumptionRow s u today week).1 (consumptionCols t).1
              (toString (parsedCellNum (getConsumptionRow s u today week).2
                (getConsumptionRow s u today week).1 (consumptionCols t).1 + count)))
            (getConsumptionRow s u today week).1 (consumptionCols t).2
            (toString (parsedCellNum (getConsumptionRow s u today week).2
              (getConsumptionRow s u today week).1 (consumptionCols t).2 + cost))
        else
          updateCell (getConsumptionRow s u today week).2
            (getConsumptionRow s u today week).1 (consumptionCols t).1
            (toString (parsedCellNum (getConsumptionRow s u today week).2
              (getConsumptionRow s u today week).1 (consumptionCols t).1 + count))) := by
  unfold recordConsumption
  rw [hparse]

/-- C3: recording consumption accumulates rather than overwrites — the
recorder reads the current count and cost cells of the parsed type
(blank or non-numeric read as 0) and writes back the sums with the parsed
increment; in particular recording "x 100" then "xx 50" on the same day
leaves the day's x-row with count cell "3" and cost cell "150". -/
theorem c3_consumption_accumulates (s : Sheet) (u today week text : String)
    (t : Char) (count cost : Nat) (hs : 1 ≤ s.length)
    (hparse : parseConsumptionInput text = some (t, count, cost)) :
    ((recordConsumption s u today week text).1 = true
      ∧ getCell (recordConsumption s u today week text).2.2
          (getConsumptionRow s u today week).1 (consumptionCols t).1
        = toString (parsedCellNum (getConsumptionRow s u today week).2
            (getConsumptionRow s u today week).1 (consumptionCols t).1 + count)
      ∧ (0 < cost →
          getCell (recordConsumption s u today week text).2.2
            (getConsumptionRow s u today week).1 (consumptionCols t).2
          = toString (parsedCellNum (getConsumptionRow s u today week).2
              (getConsumptionRow s u today week).1 (consumptionCols t).2 + cost)))
    ∧ getCell (recordConsumption (recordConsumption
        [["User ID", "Date", "Week Number", "Coffee (x)", "Coffee Cost",
          "Sugary (y)", "Sugary Cost", "Flour (z)", "Flour Cost"]]
        "42" "2024-01-05" "2024-01-01" "x 100").2.2
        "42" "2024-01-05" "2024-01-01" "xx 50").2.2 2 4 = "3"
    ∧ getCell (recordConsumption (recordConsumption
        [["User ID", "Date", "Week Number", "Coffee (x)", "Coffee Cost",
          "Sugary (y)", "Sugary Cost", "Flour (z)", "Flour Cost"]]
        "42" "2024-01-05" "2024-01-01" "x 100").2.2
        "42" "2024-01-05" "2024-01-01" "xx 50").2.2 2 5 = "150" := by
  refine ⟨?_, by decide, by decide⟩
  have hred := recordConsumption_parsed s u today week text t count cost hparse
  have hf := getConsumptionRow_found s u today week hs
  obtain ⟨hn2, hnlt⟩ := consumptionFound_lt _ _ _ _ _ hf
  obtain ⟨hcne, hc1, hc2⟩ := consumptionCols_spec t
  refine ⟨by rw [hred], ?_, ?_⟩
  · rw [hred]
    simp only
    by_cases hcost : 0 < cost
    · rw [if_pos hcost,
        getCell_updateCell_col_ne _ _ _ _ _ hc2 hc1 (fun e => hcne e.symm),
        getCell_updateCell_self _ _ _ _ hnlt]
    · rw [if_neg hcost, getCell_updateCell_self _ _ _ _ hnlt]
  · intro hcost
    rw [hred]
    simp only
    rw [if_pos hcost,
      getCell_updateCell_self _ _ _ _ (by rw [length_updateCell]; exact hnlt)]

/-- Witness for C3: the accumulation statement applied to the second
recording of the concrete two-step scenario. -/
theorem c3_consumption_accumulates_witness :
    ((recordConsumption (recordConsumption
        [["User ID", "Date", "Week Number", "Coffee (x)", "Coffee Cost",
          "Sugary (y)", "Sugary Cost", "Flour (z)", "Flour Cost"]]
        "42" "2024-01-05" "2024-01-01" "x 100").2.2
        "42" "2024-01-05" "2024-01-01" "xx 50").1 = true
      ∧ getCell (recordConsumption (recordConsumption
          [["User ID", "Date", "Week Number", "Coffee (x)", "Coffee Cost",
            "Sugary (y)", "Sugary Cost", "Flour (z)", "Flour Cost"]]
          "42" "2024-01-05" "2024-01-01" "x 100").2.2
          "42" "2024-01-05" "2024-01-01" "xx 50").2.2
          (getConsumptionRow (recordConsumption
            [["User ID", "Date", "Week Number", "Coffee (x)", "Coffee Cost",
              "Sugary (y)", "Sugary Cost", "Flour (z)", "Flour Cost"]]
            "42" "2024-01-05" "2024-01-01" "x 100").2.2
            "42" "2024-01-05" "2024-01-01").1 (consumptionCols 'x').1
        = toString (parsedCellNum (getConsumptionRow (recordConsumption
            [["User ID", "Date", "Week Number", "Coffee (x)", "Coffee Cost",
              "Sugary (y)", "Sugary Cost", "Flour (z)", "Flour Cost"]]
            "42" "2024-01-05" "2024-01-01" "x 100").2.2
            "42" "2024-01-05" "2024-01-01").2
            (getConsumptionRow (recordConsumption
              [["User ID", "Date", "Week Number", "Coffee (x)", "Coffee Cost",
                "Sugary (y)", "Sugary Cost", "Flour (z)", "Flour Cost"]]
              "42" "2024-01-05" "2024-01-01" "x 100").2.2
              "42" "2024-01-05" "2024-01-01").1 (consumptionCols 'x').1 + 2)
      ∧ (0 < 50 →
          getCell (recordConsumption (recordConsumption
            [["User ID", "Date", "Week Number", "Coffee (x)", "Coffee Cost",
              "Sugary (y)", "Sugary Cost", "Flour (z)", "Flour Cost"]]
            "42" "2024-01-05" "2024-01-01" "x 100").2.2
            "42" "2024-01-05" "2024-01-01" "xx 50").2.2
            (getConsumptionRow (recordConsumption
              [["User ID", "Date", "Week Number", "Coffee (x)", "Coffee Cost",
                "Sugary (y)", "Sugary Cost", "Flour (z)", "Flour Cost"]]
              "42" "2024-01-05" "2024-01-01" "x 100").2.2
              "42" "2024-01-05" "2024-01-01").1 (consumptionCols 'x').2
          = toString (parsedCellNum (getConsumptionRow (recordConsumption
              [["User ID", "Date", "Week Number", "Coffee (x)", "Coffee Cost",
                "Sugary (y)", "Sugary Cost", "Flour (z)", "Flour Cost"]]
              "42" "2024-01-05" "2024-01-01" "x 100").2.2
              "42" "2024-01-05" "2024-01-01").2
              (getConsumptionRow (recordConsumption
                [["User ID", "Date", "Week Number", "Coffee (x)", "Coffee Cost",
                  "Sugary (y)", "Sugary Cost", "Flour (z)", "Flour Cost"]]
                "42" "2024-01-05" "2024-01-01" "x 100").2.2
                "42" "2024-01-05" "2024-01-01").1 (consumptionCols 'x').2 + 50)))
    ∧ parseConsumptionInput "xx 50" = some ('x', 2, 50) :=
  ⟨(c3_consumption_accumulates (recordConsumption
      [["User ID", "Date", "Week Number", "Coffee (x)", "Coffee Cost",
        "Sugary (y)", "Sugary Cost", "Flour (z)", "Flour Cost"]]
      "42" "2024-01-05" "2024-01-01" "x 100").2.2
      "42" "2024-01-05" "2024-01-01" "xx 50" 'x' 2 50 (by decide) (by decide)).1,
   by decide⟩

/-- C8: the count cell is always written, but the cost cell is written
only when the added cost is strictly positive — a zero-cost entry leaves
the existing cost cell value unchanged. -/
theorem c8_cost_cell_conditional_write (s : Sheet) (u today week text : String)
    (t : Char) (count cost : Nat) (hs : 1 ≤ s.length)
    (hparse : parseConsumptionInput text = some (t, count, cost)) :
    getCell (recordConsumption s u today week text).2.2
        (getConsumptionRow s u today week).1 (consumptionCols t).1
      = toString (parsedCellNum (getConsumptionRow s u today week).2
          (getConsumptionRow s u today week).1 (consumptionCols t).1 + count)
    ∧ (cost = 0 →
        getCell (recordConsumption s u today week text).2.2
          (getConsumptionRow s u today week).1 (consumptionCols t).2
        = getCell (getConsumptionRow s u today week).2
            (getConsumptionRow s u today week).1 (consumptionCols t).2)
    ∧ (0 < cost →
        getCell (recordConsumption s u today week text).2.2
          (getConsumptionRow s u today week).1 (consumptionCols t).2
        = toString (parsedCellNum (getConsumptionRow s u today week).2
            (getConsumptionRow s u today week).1 (consumptionCols t).2 + cost)) := by
  have hred := recordConsumption_parsed s u today week text t count cost hparse
  have hf := getConsumptionRow_found s u today week hs
  obtain ⟨hn2, hnlt⟩ := consumptionFound_lt _ _ _ _ _ hf
  obtain ⟨hcne, hc1, hc2⟩ := consumptionCols_spec t
  refine ⟨?_, ?_, ?_⟩
  · rw [hred]
    simp only
    by_cases hcost : 0 < cost
    · rw [if_pos hcost,
        getCell_updateCell_col_ne _ _ _ _ _ hc2 hc1 (fun e => hcne e.symm),
        getCell_updateCell_self _ _ _ _ hnlt]
    · rw [if_neg hcost, getCell_updateCell_self _ _ _ _ hnlt]
  · intro hcost
    rw [hred]
    simp only
    rw [if_neg (by omega),
      getCell_updateCell_col_ne _ _ _ _ _ hc1 hc2 hcne]
  · intro hcost
    rw [hred]
    simp only
    rw [if_pos hcost,
      getCell_updateCell_self _ _ _ _ (by rw [length_updateCell]; exact hnlt)]

/-- Witness for C8: a zero-cost entry "x" recorded after "x 100" leaves
the cost cell holding "100". -/
theorem c8_cost_cell_conditional_write_witness :
    (0 = 0 →
      getCell (recordConsumption (recordConsumption
          [["User ID", "Date", "Week Number", "Coffee (x)", "Coffee Cost",
            "Sugary (y)", "Sugary Cost", "Flour (z)", "Flour Cost"]]
          "42" "2024-01-05" "2024-01-01" "x 100").2.2
          "42" "2024-01-05" "2024-01-01" "x").2.2
        (getConsumptionRow (recordConsumption
          [["User ID", "Date", "Week Number", "Coffee (x)", "Coffee Cost",
            "Sugary (y)", "Sugary Cost", "Flour (z)", "Flour Cost"]]
          "42" "2024-01-05" "2024-01-01" "x 100").2.2
          "42" "2024-01-05" "2024-01-01").1 (consumptionCols 'x').2
      = getCell (getConsumptionRow (recordConsumption
          [["User ID", "Date", "Week Number", "Coffee (x)", "Coffee Cost",
            "Sugary (y)", "Sugary Cost", "Flour (z)", "Flour Cost"]]
          "42" "2024-01-05" "2024-01-01" "x 100").2.2
          "42" "2024-01-05" "2024-01-01").2
          (getConsumptionRow (recordConsumption
            [["User ID", "Date", "Week Number", "Coffee (x)", "Coffee Cost",
              "Sugary (y)", "Sugary Cost", "Flour (z)", "Flour Cost"]]
            "42" "2024-01-05" "2024-01-01" "x 100").2.2
            "42" "2024-01-05" "2024-01-01").1 (consumptionCols 'x').2)
    ∧ getCell (recordConsumption (recordConsumption
        [["User ID", "Date", "Week Number", "Coffee (x)", "Coffee Cost",
          "Sugary (y)", "Sugary Cost", "Flour (z)", "Flour Cost"]]
        "42" "2024-01-05" "2024-01-01" "x 100").2.2
        "42" "2024-01-05" "2024-01-01" "x").2.2 2 5 = "100" :=
  ⟨(c8_cost_cell_conditional_write (recordConsumption
      [["User ID", "Date", "Week Number", "Coffee (x)", "Coffee Cost",
        "Sugary (y)", "Sugary Cost", "Flour (z)", "Flour Cost"]]
      "42" "2024-01-05" "2024-01-01" "x 100").2.2
      "42" "2024-01-05" "2024-01-01" "x" 'x' 1 0 (by decide) (by decide)).2.1,
   by decide⟩

/-- C10: when the input text does not match the consumption grammar, the
operation returns the invalid-format failure with the sheet untouched —
the parse check precedes the row lookup, so no row is read, created or
modified. -/
theorem c10_consumption_parse_failure_atomic (s : Sheet) (u today week text : String)
    (h : parseConsumptionInput text = none) :
    recordConsumption s u today week text
      = (false, "Invalid format. Use: 'x', 'xxx', 'xx 150', 'y 75', 'zzz 200'", s) := by
  unfold recordConsumption
  rw [h]

/-- Witness for C10: the unparsable input "abc" leaves an arbitrary
concrete sheet unchanged. -/
theorem c10_consumption_parse_failure_atomic_witness :
    recordConsumption [["h"], ["42", "2024-01-05", "2024-01-01", "7", "900"]]
        "42" "2024-01-05" "2024-01-01" "abc"
      = (false, "Invalid format. Use: 'x', 'xxx', 'xx 150', 'y 75', 'zzz 200'",
          [["h"], ["42", "2024-01-05", "2024-01-01", "7", "900"]]) :=
  c10_consumption_parse_failure_atomic
    [["h"], ["42", "2024-01-05", "2024-01-01", "7", "900"]]
    "42" "2024-01-05" "2024-01-01" "abc" (by decide)

/-! ## Language sheet (`_get_language_row`, `_record_language`) -/

/-- Static catalogue `LANGUAGE_HABITS` (bot.py:50-54), keyed by the codes
the recorder passes in. -/
def LANGUAGE_HABITS (t : String) : String :=
  if t = "ch" then "Chinese activation"
  else if t = "he" then "Hebrew cards"
  else "Tatar cards"

/-- Row-match test of `_get_language_row` (bot.py:417-421), identical in
shape to the consumption one. -/
def languageRowMatch (u today week : String) (row : List String) : Bool :=
  2 < row.length && row.getD 0 "" = u && row.getD 1 "" = today && row.getD 2 "" = week

/-- Embedding of `_get_language_row` (bot.py:404-431). -/
def getLanguageRow (s : Sheet) (u today week : String) : Nat × Sheet :=
  match findRowIdx (languageRowMatch u today week) (s.drop 1) 2 with
  | some i => (i, s)
  | none => (s.length + 1, s ++ [[u, today, week, "", "", ""]])

/-- Shared body of the three `_record_language` branches (bot.py:454-471):
find or create the row, reject when the cell is truthy (`if current_value:`
— any non-empty string, whitespace included), else write the checkmark. -/
def recordLanguageAt (s : Sheet) (u today week lang : String) (col : Nat) :
    Bool × String × Sheet :=
  if getCell (getLanguageRow s u today week).2 (getLanguageRow s u today week).1 col
      ≠ "" then
    (false, LANGUAGE_HABITS lang ++ " already recorded today",
      (getLanguageRow s u today week).2)
  else
    (true, "✓ " ++ LANGUAGE_HABITS lang ++ " recorded!",
      updateCell (getLanguageRow s u today week).2 (getLanguageRow s u today week).1
        col "✓")

/-- Embedding of `_record_language` (bot.py:433-477): strip and lowercase
the text, dispatch on the three codes (columns 4, 5, 6), else reject. -/
def recordLanguage (s : Sheet) (u today week : String) (text : String) :
    Bool × String × Sheet :=
  if (⟨pyLower (pyStrip text.data)⟩ : String) = "ch" then
    recordLanguageAt s u today week "ch" 4
  else if (⟨pyLower (pyStrip text.data)⟩ : String) = "he" then
    recordLanguageAt s u today week "he" 5
  else if (⟨pyLower (pyStrip text.data)⟩ : String) = "ta" then
    recordLanguageAt s u today week "ta" 6
  else (false, "Invalid language code. Use: 'ch', 'he', or 'ta'", s)

/-- C9: the two idempotent guards use different emptiness tests — the
activity recorder treats a whitespace-only checkmark cell as empty and
succeeds (its test is `value and value.strip()`), while the language
recorder treats any non-empty cell, whitespace-only included, as already
recorded and fails with the duplicate message (its test is plain
`if current_value:`). -/
theorem c9_emptiness_tests_differ (sa sl : Sheet) (u today week : String)
    (hid : Nat) (h1 : 1 ≤ hid) (h5 : hid ≤ 5) (v : String)
    (hv1 : v ≠ "") (hv2 : pyStripStr v = "")
    (hac : getCell (getActivityRow sa u today week).2
        (getActivityRow sa u today week).1 (colMap hid) = v)
    (hlc : getCell (getLanguageRow sl u today week).2
        (getLanguageRow sl u today week).1 4 = v) :
    (recordHabit sa u today week hid).1 = true
    ∧ recordLanguage sl u today week "ch"
      = (false, LANGUAGE_HABITS "ch" ++ " already recorded today",
          (getLanguageRow sl u today week).2) := by
  constructor
  · rw [recordHabit_success sa u today week hid h1 h5 (by rw [hac]; exact hv2)]
  · unfold recordLanguage
    rw [if_pos (by decide)]
    unfold recordLanguageAt
    rw [hlc, if_pos hv1]

/-- Witness for C9: a cell holding a single space " " — activity habit 1
succeeds while language code "ch" is rejected as a duplicate. -/
theorem c9_emptiness_tests_differ_witness :
    (recordHabit [["User ID", "Date", "Prayer", "Qi Gong", "Ball", "Run/Stretch",
        "Strength/Stretch", "Week Number", "Goals"],
        ["7", "2024-03-08", " ", "", "", "", "", "2024-03-04", ""]]
        "7" "2024-03-08" "2024-03-04" 1).1 = true
    ∧ recordLanguage [["User ID", "Date", "Week Number", "Chinese (ch)",
        "Hebrew (he)", "Tatar (ta)"],
        ["7", "2024-03-08", "2024-03-04", " ", "", ""]]
        "7" "2024-03-08" "2024-03-04" "ch"
      = (false, LANGUAGE_HABITS "ch" ++ " already recorded today",
          (getLanguageRow [["User ID", "Date", "Week Number", "Chinese (ch)",
            "Hebrew (he)", "Tatar (ta)"],
            ["7", "2024-03-08", "2024-03-04", " ", "", ""]]
            "7" "2024-03-08" "2024-03-04").2) :=
  c9_emptiness_tests_differ
    [["User ID", "Date", "Prayer", "Qi Gong", "Ball", "Run/Stretch",
      "Strength/Stretch", "Week Number", "Goals"],
      ["7", "2024-03-08", " ", "", "", "", "", "2024-03-04", ""]]
    [["User ID", "Date", "Week Number", "Chinese (ch)", "Hebrew (he)", "Tatar (ta)"],
      ["7", "2024-03-08", "2024-03-04", " ", "", ""]]
    "7" "2024-03-08" "2024-03-04" 1 (by decide) (by decide) " "
    (by decide) (by decide) (by decide) (by decide)

/-! ## Weekly statistics (`_get_weekly_stats`, bot.py:506-543) -/

/-- Per-week activity aggregate of `_get_weekly_stats`: the `stats` dict
(bot.py:515-520) with `daily_habits` 1–3, `weekly_habits` 4–5 and
`days_tracked`. -/
structure WeeklyStats where
  week : String
  d1 : Nat
  d2 : Nat
  d3 : Nat
  w4 : Nat
  w5 : Nat
  daysTracked : Nat
deriving DecidableEq, Repr

/-- Row filter of `_get_weekly_stats` (bot.py:523):
`len(row) > 7 and row[0] == str(user_id) and row[7] == week_number`. -/
def statsRowMatch (u week : String) (row : List String) : Bool :=
  7 < row.length && row.getD 0 "" = u && row.getD 7 "" = week

/-- Checkmark test of `_get_weekly_stats`: 1 when the 0-based cell `i`
equals "✓" (bot.py:526-536). -/
def checkInc (row : List String) (i : Nat) : Nat :=
  if row.getD i "" = "✓" then 1 else 0

/-- One row's contribution in `_get_weekly_stats` (bot.py:522-536). -/
def statsStep (u week : String) (st : WeeklyStats) (row : List String) : WeeklyStats :=
  if statsRowMatch u week row then
    { st with
      daysTracked := st.daysTracked + 1
      d1 := st.d1 + checkInc row 2
      d2 := st.d2 + checkInc row 3
      d3 := st.d3 + checkInc row 4
      w4 := st.w4 + checkInc row 5
      w5 := st.w5 + checkInc row 6 }
  else st

/-- Embedding of `_get_weekly_stats` (bot.py:506-543): scan all data rows
and accumulate.  Total by construction — the Python code can only raise on
store access, which the model keeps external. -/
def getWeeklyStats (s : Sheet) (u week : String) : WeeklyStats :=
  (s.drop 1).foldl (statsStep u week) ⟨week, 0, 0, 0, 0, 0, 0⟩

/-- C7: over an empty partition (no data row matches the user and week id)
the weekly statistics are the all-zero record with days_tracked = 0; the
scan is total, so a user with no rows never raises. -/
theorem c7_weekly_stats_empty_partition (s : Sheet) (u week : String)
    (h : ∀ row ∈ s.drop 1, statsRowMatch u week row = false) :
    getWeeklyStats s u week = ⟨week, 0, 0, 0, 0, 0, 0⟩ := by
  unfold getWeeklyStats
  have main : ∀ l : List (List String),
      (∀ row ∈ l, statsRowMatch u week row = false) →
      l.foldl (statsStep u week) ⟨week, 0, 0, 0, 0, 0, 0⟩ = ⟨week, 0, 0, 0, 0, 0, 0⟩ := by
    intro l
    induction l with
    | nil => intro _; rfl
    | cons r rest ih =>
      intro hl
      rw [List.foldl_cons,
        show statsStep u week ⟨week, 0, 0, 0, 0, 0, 0⟩ r = ⟨week, 0, 0, 0, 0, 0, 0⟩ from by
          simp [statsStep, hl r (by simp)]]
      exact ih fun row hr => hl row (by simp [hr])
  exact main _ h

/-- Witness for C7: a sheet holding only another user's fully checked row
still yields the all-zero statistics for user "42". -/
theorem c7_weekly_stats_empty_partition_witness :
    getWeeklyStats [["User ID", "Date", "Prayer", "Qi Gong", "Ball", "Run/Stretch",
        "Strength/Stretch", "Week Number", "Goals"],
        ["99", "2024-01-05", "✓", "✓", "✓", "✓", "✓", "2024-01-01", ""]]
        "42" "2024-01-01"
      = ⟨"2024-01-01", 0, 0, 0, 0, 0, 0⟩ :=
  c7_weekly_stats_empty_partition
    [["User ID", "Date", "Prayer", "Qi Gong", "Ball", "Run/Stretch",
      "Strength/Stretch", "Week Number", "Goals"],
      ["99", "2024-01-05", "✓", "✓", "✓", "✓", "✓", "2024-01-01", ""]]
    "42" "2024-01-01" (by decide)

/-! ## Weekly feedback (`_generate_feedback`, `_generate_basic_feedback`) -/

/-- Consumption aggregate of `_get_consumption_stats` (bot.py:595-599). -/
structure ConsumptionStats where
  coffeeCount : Nat
  coffeeCost : Nat
  sugaryCount : Nat
  sugaryCost : Nat
  flourCount : Nat
  flourCost : Nat
deriving DecidableEq, Repr

/-- Language aggregate of `_get_weekly_language_summary` (bot.py:488). -/
structure LanguageStats where
  ch : Nat
  he : Nat
  ta : Nat
deriving DecidableEq, Repr

set_option linter.unusedVariables false in
/-- Embedding of `_generate_basic_feedback` (bot.py:711-735): the exact
f-string template, including the leading and trailing newline.  The
`previous_stats` argument is accepted (as in the source signature) and is
not read by the body — the source template contains no week-over-week
comparison. -/
def generateBasicFeedback (cur : WeeklyStats) (prev : List (String × WeeklyStats))
    (cons : ConsumptionStats) (lang : LanguageStats) : String :=
  "\n📊 **WEEKLY FEEDBACK - " ++ cur.week ++ "**\n\n**Activity Summary:**\n• Prayer: "
    ++ toString cur.d1 ++ " times\n• Qi Gong: " ++ toString cur.d2
    ++ " times\n• Ball work: " ++ toString cur.d3 ++ " times\n• Running: "
    ++ toString cur.w4 ++ " times\n• Strengthening: " ++ toString cur.w5
    ++ " times\n\n**Consumption:**\n• Coffee: " ++ toString cons.coffeeCount
    ++ " doses (" ++ toString cons.coffeeCost ++ " руб)\n• Sugary: "
    ++ toString cons.sugaryCount ++ " doses (" ++ toString cons.sugaryCost
    ++ " руб)\n• Flour: " ++ toString cons.flourCount ++ " doses ("
    ++ toString cons.flourCost ++ " руб)\n\n**Language Learning:**\n• Chinese: "
    ++ toString lang.ch ++ " sessions\n• Hebrew: " ++ toString lang.he
    ++ " sessions\n• Tatar: " ++ toString lang.ta
    ++ " sessions\n\nKeep up the great work! 💪\n"

/-- Outcome of the external DeepSeek HTTP call in `_generate_feedback`:
`ok text` is a 200 response, `fail` covers a non-200 status code and any
raised exception (bot.py:683-696) — both are handled identically. -/
inductive ApiOutcome where
  | ok (text : String)
  | fail
deriving DecidableEq

/-- Control flow of `_generate_feedback` (bot.py:624-696): with no API key
configured the deterministic template is returned at once (bot.py:627-629);
with a key, a 200 response is returned verbatim and every other outcome
falls back to the template. -/
def generateFeedback (apiKey : Option String) (api : ApiOutcome)
    (cur : WeeklyStats) (prev : List (String × WeeklyStats))
    (cons : ConsumptionStats) (lang : LanguageStats) : String :=
  match apiKey with
  | none => generateBasicFeedback cur prev cons lang
  | some _ =>
    match api with
    | .ok t => t
    | .fail => generateBasicFeedback cur prev cons lang

theorem isInfix_self_append {α : Type} (x l : List α) : x <:+: x ++ l :=
  ⟨[], l, by simp⟩

theorem isInfix_append_right {α : Type} (l₁ : List α) {x l₂ : List α}
    (h : x <:+: l₂) : x <:+: l₁ ++ l₂ := by
  obtain ⟨s, t, rfl⟩ := h
  exact ⟨l₁ ++ s, t, by simp⟩

/-- Counterexample for C5: the fallback template is wholly independent of
the trailing-weeks statistics — its output with a strictly worse preceding
week on record is character-for-character identical to its output with no
preceding data at all, so it cannot contain any up/down/same indicator
against the immediately preceding week. -/
theorem c5_no_comparison_indicator_counterexample :
    generateBasicFeedback ⟨"2024-01-08", 1, 2, 3, 1, 0, 5⟩
        [("2024-01-01", ⟨"2024-01-01", 6, 6, 6, 1, 1, 6⟩)]
        ⟨2, 100, 1, 50, 0, 0⟩ ⟨1, 2, 3⟩
      = generateBasicFeedback ⟨"2024-01-08", 1, 2, 3, 1, 0, 5⟩ []
        ⟨2, 100, 1, 50, 0, 0⟩ ⟨1, 2, 3⟩
    ∧ [("2024-01-01", (⟨"2024-01-01", 6, 6, 6, 1, 1, 6⟩ : WeeklyStats))]
        ≠ ([] : List (String × WeeklyStats)) :=
  ⟨rfl, by decide⟩

set_option maxRecDepth 16000 in
/-- C5 (amended): with an absent text-generation key, or any non-success
outcome of the call, feedback generation returns the deterministic
fallback template populated with exactly the aggregate numbers passed in
(each aggregate's decimal rendering occurs in the output); the fallback
ignores the trailing-weeks statistics (it contains no week-over-week
indicator) and never returns an empty report. -/
theorem c5_feedback_fallback (apiKey : Option String) (api : ApiOutcome)
    (cur : WeeklyStats) (prev prev' : List (String × WeeklyStats))
    (cons : ConsumptionStats) (lang : LanguageStats)
    (h : apiKey = none ∨ api = ApiOutcome.fail) :
    generateFeedback apiKey api cur prev cons lang
      = generateBasicFeedback cur prev cons lang
    ∧ generateBasicFeedback cur prev cons lang
      = generateBasicFeedback cur prev' cons lang
    ∧ generateBasicFeedback cur prev cons lang ≠ ""
    ∧ cur.week.data <:+: (generateBasicFeedback cur prev cons lang).data
    ∧ (toString cur.d1).data <:+: (generateBasicFeedback cur prev cons lang).data
    ∧ (toString cur.d2).data <:+: (generateBasicFeedback cur prev cons lang).data
    ∧ (toString cur.d3).data <:+: (generateBasicFeedback cur prev cons lang).data
    ∧ (toString cur.w4).data <:+: (generateBasicFeedback cur prev cons lang).data
    ∧ (toString cur.w5).data <:+: (generateBasicFeedback cur prev cons lang).data
    ∧ (toString cons.coffeeCount).data <:+: (generateBasicFeedback cur prev cons lang).data
    ∧ (toString cons.coffeeCost).data <:+: (generateBasicFeedback cur prev cons lang).data
    ∧ (toString cons.sugaryCount).data <:+: (generateBasicFeedback cur prev cons lang).data
    ∧ (toString cons.sugaryCost).data <:+: (generateBasicFeedback cur prev cons lang).data
    ∧ (toString cons.flourCount).data <:+: (generateBasicFeedback cur prev cons lang).data
    ∧ (toString cons.flourCost).data <:+: (generateBasicFeedback cur prev cons lang).data
    ∧ (toString lang.ch).data <:+: (generateBasicFeedback cur prev cons lang).data
    ∧ (toString lang.he).data <:+: (generateBasicFeedback cur prev cons lang).data
    ∧ (toString lang.ta).data <:+: (generateBasicFeedback cur prev cons lang).data := by
  refine ⟨?_, rfl, ?_, ?_, ?_, ?_, ?_, ?_, ?_, ?_, ?_, ?_, ?_, ?_, ?_, ?_, ?_, ?_⟩
  · rcases h with rfl | rfl
    · rfl
    · cases apiKey <;> rfl
  · intro hcontra
    have hdata := congrArg String.data hcontra
    simp [generateBasicFeedback, String.data_append] at hdata
  all_goals
    simp only [generateBasicFeedback, String.data_append, List.append_assoc]
  all_goals
    repeat
      first
      | exact isInfix_self_append _ _
      | apply isInfix_append_right

/-- Witness for C5: an absent API key on concrete aggregates yields the
nonempty deterministic template. -/
theorem c5_feedback_fallback_witness :
    generateFeedback none ApiOutcome.fail ⟨"2024-01-08", 1, 2, 3, 1, 0, 5⟩ []
        ⟨2, 100, 1, 50, 0, 0⟩ ⟨1, 2, 3⟩
      = generateBasicFeedback ⟨"2024-01-08", 1, 2, 3, 1, 0, 5⟩ []
        ⟨2, 100, 1, 50, 0, 0⟩ ⟨1, 2, 3⟩
    ∧ generateBasicFeedback ⟨"2024-01-08", 1, 2, 3, 1, 0, 5⟩ []
        ⟨2, 100, 1, 50, 0, 0⟩ ⟨1, 2, 3⟩ ≠ "" :=
  ⟨(c5_feedback_fallback none ApiOutcome.fail ⟨"2024-01-08", 1, 2, 3, 1, 0, 5⟩ [] []
      ⟨2, 100, 1, 50, 0, 0⟩ ⟨1, 2, 3⟩ (Or.inl rfl)).1,
   (c5_feedback_fallback none ApiOutcome.fail ⟨"2024-01-08", 1, 2, 3, 1, 0, 5⟩ [] []
      ⟨2, 100, 1, 50, 0, 0⟩ ⟨1, 2, 3⟩ (Or.inl rfl)).2.2.1⟩

/-! ## Time and week utilities (`_get_week_start`, `_get_week_number`)

`_get_week_start` (bot.py:144-151) takes a timezone-aware datetime, moves
back `date.weekday()` days (Python: Monday = 0 … Sunday = 6) with
`timedelta`, and zeroes the time of day; `_get_week_number` (bot.py:153-158)
formats that Monday as `%Y-%m-%d`.  The embedding models a datetime as a
proleptic-Gregorian calendar date plus a time of day (the time fields never
influence the date arithmetic, exactly as in the source).  The weekday is
obtained from a day count since 0000-03-01 computed by the standard civil
arithmetic; day 0 of that count is a Wednesday, so Python's Monday-based
weekday is `(count + 2) % 7`. -/

/-- Calendar date (proleptic Gregorian), year ≥ 1 in every theorem. -/
structure Date where
  year : Nat
  month : Nat
  day : Nat
deriving DecidableEq, Repr

/-- Gregorian leap-year rule, as implemented by Python's calendar. -/
def isLeap (y : Nat) : Bool := y % 4 = 0 && (y % 100 ≠ 0 || y % 400 = 0)

/-- Length of a month. -/
def daysInMonth (y m : Nat) : Nat :=
  if m = 2 then (if isLeap y then 29 else 28)
  else if m = 4 ∨ m = 6 ∨ m = 9 ∨ m = 11 then 30
  else 31

/-- Well-formed calendar dates. -/
def Date.Valid (d : Date) : Prop :=
  1 ≤ d.year ∧ 1 ≤ d.month ∧ d.month ≤ 12 ∧ 1 ≤ d.day
    ∧ d.day ≤ daysInMonth d.year d.month

/-- Successor date (one `timedelta(days=1)` step forward). -/
def nextDay (d : Date) : Date :=
  if d.day < daysInMonth d.year d.month then ⟨d.year, d.month, d.day + 1⟩
  else if d.month < 12 then ⟨d.year, d.month + 1, 1⟩
  else ⟨d.year + 1, 1, 1⟩

/-- Predecessor date (one `timedelta(days=1)` step backward). -/
def prevDay (d : Date) : Date :=
  if 1 < d.day then ⟨d.year, d.month, d.day - 1⟩
  else if 1 < d.month then ⟨d.year, d.month - 1, daysInMonth d.year (d.month - 1)⟩
  else ⟨d.year - 1, 12, 31⟩

/-- Python `date + timedelta(days=k)`. -/
def addDays (d : Date) : Nat → Date
  | 0 => d
  | k + 1 => addDays (nextDay d) k

/-- Python `date - timedelta(days=k)` (bot.py:150). -/
def subDays (d : Date) : Nat → Date
  | 0 => d
  | k + 1 => subDays (prevDay d) k

/-- March-based year shift of the civil day-count arithmetic. -/
def shiftedYear (d : Date) : Nat := d.year - (if d.month ≤ 2 then 1 else 0)

/-- March-based month index: March = 0, …, February = 11. -/
def marchMonth (m : Nat) : Nat := if 3 ≤ m then m - 3 else m + 9

/-- Days from 0000-03-01 to March 1 of shifted year `y`. -/
def yearDays (y : Nat) : Nat :=
  (y / 400) * 146097 + ((y % 400) * 365 + (y % 400) / 4 - (y % 400) / 100)

/-- Day of the March-based year (0 for March 1). -/
def dayOfYearM (d : Date) : Nat := (153 * marchMonth d.month + 2) / 5 + d.day - 1

/-- Day count since 0000-03-01 (standard civil-from-days arithmetic). -/
def daysFromCivil (d : Date) : Nat := yearDays (shiftedYear d) + dayOfYearM d

/-- Python `datetime.weekday()`: Monday = 0, …, Sunday = 6. -/
def pyWeekday (d : Date) : Nat := (daysFromCivil d + 2) % 7

example : daysFromCivil ⟨1970, 1, 1⟩ = 719468 := by decide
example : pyWeekday ⟨1970, 1, 1⟩ = 3 := by decide
example : pyWeekday ⟨2024, 1, 1⟩ = 0 := by decide
example : pyWeekday ⟨2024, 3, 8⟩ = 4 := by decide
example : daysInMonth 2024 2 = 29 := by decide
example : daysInMonth 2023 2 = 28 := by decide
example : daysInMonth 1900 2 = 28 := by decide
example : daysInMonth 2000 2 = 29 := by decide

/-- Decimal digit characters. -/
def digitChar (n : Nat) : Char :=
  match n with
  | 0 => '0'
  | 1 => '1'
  | 2 => '2'
  | 3 => '3'
  | 4 => '4'
  | 5 => '5'
  | 6 => '6'
  | 7 => '7'
  | 8 => '8'
  | _ => '9'

/-- `%m` / `%d`: zero-padded two-digit field. -/
def pad2 (n : Nat) : List Char := [digitChar (n / 10 % 10), digitChar (n % 10)]

/-- `%Y`: zero-padded four-digit year field (faithful to CPython for years
between 1000 and 9999, the only ones the theorems use). -/
def pad4 (n : Nat) : List Char :=
  [digitChar (n / 1000 % 10), digitChar (n / 100 % 10),
    digitChar (n / 10 % 10), digitChar (n % 10)]

/-- `strftime("%Y-%m-%d")` (bot.py:158). -/
def formatDate (d : Date) : String :=
  ⟨pad4 d.year ++ ['-'] ++ pad2 d.month ++ ['-'] ++ pad2 d.day⟩

example : formatDate ⟨2024, 3, 8⟩ = "2024-03-08" := by decide

/-- Timezone-aware `datetime` as used by the bot: a date plus a time of
day (the seconds and microseconds the code zeroes out never influence any
modelled computation and are omitted). -/
structure Instant where
  date : Date
  hour : Nat
  minute : Nat
deriving DecidableEq, Repr

/-- Embedding of `_get_week_start` (bot.py:144-151): go back `weekday()`
days and zero the time of day. -/
def getWeekStart (t : Instant) : Instant :=
  ⟨subDays t.date (pyWeekday t.date), 0, 0⟩

/-- Embedding of `_get_week_number` (bot.py:153-158): the week-start date
formatted `%Y-%m-%d` — the sole weekly partition key. -/
def getWeekNumber (t : Instant) : String := formatDate (getWeekStart t).date

example : getWeekNumber ⟨⟨2024, 3, 8⟩, 10, 30⟩ = "2024-03-04" := by decide
example : getWeekNumber ⟨⟨2024, 3, 4⟩, 0, 0⟩ = "2024-03-04" := by decide
example : getWeekNumber ⟨⟨2024, 3, 10⟩, 23, 59⟩ = "2024-03-04" := by decide
example : getWeekNumber ⟨⟨2024, 3, 11⟩, 0, 0⟩ = "2024-03-11" := by decide

/-! ### Calendar arithmetic lemmas -/

theorem daysInMonth_pos (y m : Nat) : 1 ≤ daysInMonth y m := by
  unfold daysInMonth
  split_ifs <;> omega

theorem daysInMonth_le (y m : Nat) : daysInMonth y m ≤ 31 := by
  unfold daysInMonth
  split_ifs <;> omega

theorem isLeap_iff (y : Nat) :
    isLeap y = true ↔ (y % 4 = 0 ∧ (y % 100 ≠ 0 ∨ y % 400 = 0)) := by
  simp [isLeap, Bool.and_eq_true, Bool.or_eq_true, decide_eq_true_eq]

theorem yearDays_succ (y : Nat) :
    yearDays (y + 1) = yearDays y + (if isLeap (y + 1) then 366 else 365) := by
  by_cases hL : isLeap (y + 1) = true
  · rw [if_pos hL]
    rw [isLeap_iff] at hL
    unfold yearDays
    omega
  · rw [if_neg hL]
    rw [isLeap_iff] at hL
    push_neg at hL
    unfold yearDays
    omega

theorem nextDay_valid (d : Date) (h : d.Valid) : (nextDay d).Valid := by
  obtain ⟨y, m, dy⟩ := d
  unfold Date.Valid at h ⊢
  dsimp only at h
  obtain ⟨hy, hm1, hm12, hd1, hdm⟩ := h
  unfold nextDay
  dsimp only
  by_cases h1 : dy < daysInMonth y m
  · rw [if_pos h1]
    dsimp only
    exact ⟨hy, hm1, hm12, by omega, by omega⟩
  · rw [if_neg h1]
    by_cases h2 : m < 12
    · rw [if_pos h2]
      dsimp only
      exact ⟨hy, by omega, by omega, by omega, daysInMonth_pos y (m + 1)⟩
    · rw [if_neg h2]
      dsimp only
      exact ⟨by omega, by omega, by omega, by omega, daysInMonth_pos (y + 1) 1⟩

theorem nextDay_year_le (d : Date) : (nextDay d).year ≤ d.year + 1 := by
  unfold nextDay
  split_ifs <;> dsimp only <;> omega

theorem prevDay_nextDay (d : Date) (h : d.Valid) : prevDay (nextDay d) = d := by
  obtain ⟨y, m, dy⟩ := d
  unfold Date.Valid at h
  dsimp only at h
  obtain ⟨hy, hm1, hm12, hd1, hdm⟩ := h
  unfold nextDay
  dsimp only
  by_cases h1 : dy < daysInMonth y m
  · rw [if_pos h1]
    unfold prevDay
    dsimp only
    rw [if_pos (by omega : 1 < dy + 1)]
    rw [show dy + 1 - 1 = dy from by omega]
  · rw [if_neg h1]
    by_cases h2 : m < 12
    · rw [if_pos h2]
      unfold prevDay
      dsimp only
      rw [if_neg (by omega : ¬1 < 1), if_pos (by omega : 1 < m + 1)]
      rw [show m + 1 - 1 = m from by omega,
        show daysInMonth y m = dy from by omega]
    · rw [if_neg h2]
      have hm : m = 12 := by omega
      subst hm
      have hdy : dy = 31 := by
        have h31 : daysInMonth y 12 = 31 := by simp [daysInMonth]
        omega
      subst hdy
      unfold prevDay
      dsimp only
      rw [if_neg (by omega : ¬1 < 1), if_neg (by omega : ¬1 < 1)]
      rw [show y + 1 - 1 = y from by omega]

theorem daysFromCivil_nextDay (d : Date) (h : d.Valid) :
    daysFromCivil (nextDay d) = daysFromCivil d + 1 := by
  obtain ⟨y, m, dy⟩ := d
  unfold Date.Valid at h
  dsimp only at h
  obtain ⟨hy, hm1, hm12, hd1, hdm⟩ := h
  unfold nextDay
  dsimp only
  by_cases h1 : dy < daysInMonth y m
  · rw [if_pos h1]
    unfold daysFromCivil shiftedYear dayOfYearM marchMonth
    dsimp only
    split_ifs <;> omega
  · rw [if_neg h1]
    have hdy : dy = daysInMonth y m := by omega
    by_cases h2 : m < 12
    · rw [if_pos h2]
      by_cases hm2 : m = 2
      · subst hm2
        have hYD := yearDays_succ (y - 1)
        rw [show y - 1 + 1 = y from by omega] at hYD
        cases hL : isLeap y with
        | true =>
          rw [hL, if_pos rfl] at hYD
          have hdy' : dy = 29 := by
            have : daysInMonth y 2 = 29 := by simp [daysInMonth, hL]
            omega
          subst hdy'
          unfold daysFromCivil shiftedYear dayOfYearM marchMonth
          dsimp only
          split_ifs <;> simp only [Nat.sub_zero] at * <;> omega
        | false =>
          rw [hL] at hYD
          simp only [Bool.false_eq_true, if_false] at hYD
          have hdy' : dy = 28 := by
            have : daysInMonth y 2 = 28 := by simp [daysInMonth, hL]
            omega
          subst hdy'
          unfold daysFromCivil shiftedYear dayOfYearM marchMonth
          dsimp only
          split_ifs <;> simp only [Nat.sub_zero] at * <;> omega
      · have hmesh : dy = daysInMonth y m := hdy
        interval_cases m <;>
          first
          | exact absurd rfl hm2
          | (simp only [daysInMonth, if_true, if_false] at hmesh
             simp at hmesh
             subst hmesh
             unfold daysFromCivil shiftedYear dayOfYearM marchMonth
             dsimp only
             split_ifs <;> simp only [Nat.sub_zero] at * <;> omega)
    · rw [if_neg h2]
      have hm : m = 12 := by omega
      subst hm
      have hdy' : dy = 31 := by
        have : daysInMonth y 12 = 31 := by simp [daysInMonth]
        omega
      subst hdy'
      unfold daysFromCivil shiftedYear dayOfYearM marchMonth
      dsimp only
      split_ifs <;> simp only [Nat.add_sub_cancel, Nat.sub_zero] at * <;> omega

/-! ### Iterated day arithmetic -/

theorem addDays_succ_outer (d : Date) (k : Nat) :
    addDays d (k + 1) = nextDay (addDays d k) := by
  induction k generalizing d with
  | zero => rfl
  | succ k ih =>
    show addDays (nextDay d) (k + 1) = nextDay (addDays d (k + 1))
    rw [ih (nextDay d)]
    show nextDay (addDays (nextDay d) k) = nextDay (addDays (nextDay d) k)
    rfl

theorem valid_addDays (d : Date) (k : Nat) : d.Valid → (addDays d k).Valid := by
  induction k generalizing d with
  | zero => exact fun h => h
  | succ k ih => exact fun h => ih (nextDay d) (nextDay_valid d h)

theorem dfc_addDays (d : Date) (k : Nat) :
    d.Valid → daysFromCivil (addDays d k) = daysFromCivil d + k := by
  induction k generalizing d with
  | zero =>
    intro _
    show daysFromCivil d = daysFromCivil d + 0
    omega
  | succ k ih =>
    intro h
    have h1 := ih (nextDay d) (nextDay_valid d h)
    have h2 := daysFromCivil_nextDay d h
    show daysFromCivil (addDays (nextDay d) k) = daysFromCivil d + (k + 1)
    omega

theorem year_addDays_le (d : Date) (k : Nat) : (addDays d k).year ≤ d.year + k := by
  induction k generalizing d with
  | zero => exact le_refl _
  | succ k ih =>
    have h1 := ih (nextDay d)
    have h2 := nextDay_year_le d
    show (addDays (nextDay d) k).year ≤ d.year + (k + 1)
    omega

theorem subDays_addDays (d : Date) (k : Nat) :
    d.Valid → subDays (addDays d k) k = d := by
  induction k generalizing d with
  | zero => exact fun _ => rfl
  | succ k ih =>
    intro h
    have hv : (addDays d k).Valid := valid_addDays d k h
    show subDays (prevDay (addDays d (k + 1))) k = d
    rw [addDays_succ_outer d k, prevDay_nextDay _ hv]
    exact ih d h

theorem pyWeekday_addDays (M : Date) (hV : M.Valid) (hW : pyWeekday M = 0)
    (k : Nat) (hk : k ≤ 6) : pyWeekday (addDays M k) = k := by
  unfold pyWeekday at *
  rw [dfc_addDays M k hV]
  omega

theorem pyWeekday_addDays_seven (M : Date) (hV : M.Valid) (hW : pyWeekday M = 0) :
    pyWeekday (addDays M 7) = 0 := by
  unfold pyWeekday at *
  rw [dfc_addDays M 7 hV]
  omega

/-! ### Injectivity of the date format -/

theorem digitChar_inj (a b : Nat) (ha : a < 10) (hb : b < 10)
    (h : digitChar a = digitChar b) : a = b := by
  interval_cases a <;> interval_cases b <;> revert h <;> decide

theorem formatDate_inj (d₁ d₂ : Date)
    (hy₁ : d₁.year ≤ 9999) (hy₂ : d₂.year ≤ 9999)
    (hm₁ : d₁.month ≤ 99) (hm₂ : d₂.month ≤ 99)
    (hd₁ : d₁.day ≤ 99) (hd₂ : d₂.day ≤ 99)
    (h : formatDate d₁ = formatDate d₂) : d₁ = d₂ := by
  obtain ⟨y₁, m₁, a₁⟩ := d₁
  obtain ⟨y₂, m₂, a₂⟩ := d₂
  dsimp only at hy₁ hy₂ hm₁ hm₂ hd₁ hd₂
  unfold formatDate pad4 pad2 at h
  have h' := congrArg String.data h
  dsimp only at h'
  simp only [List.cons_append, List.nil_append, List.cons.injEq, and_true] at h'
  obtain ⟨e1, e2, e3, e4, _, e5, e6, _, e7, e8⟩ := h'
  have g1 := digitChar_inj _ _ (by omega) (by omega) e1
  have g2 := digitChar_inj _ _ (by omega) (by omega) e2
  have g3 := digitChar_inj _ _ (by omega) (by omega) e3
  have g4 := digitChar_inj _ _ (by omega) (by omega) e4
  have g5 := digitChar_inj _ _ (by omega) (by omega) e5
  have g6 := digitChar_inj _ _ (by omega) (by omega) e6
  have g7 := digitChar_inj _ _ (by omega) (by omega) e7
  have g8 := digitChar_inj _ _ (by omega) (by omega) e8
  simp only [Date.mk.injEq]
  refine ⟨by omega, by omega, by omega⟩

set_option maxHeartbeats 1000000 in
/-- C4: the week id (the week-start date formatted YYYY-MM-DD) is constant
over every Monday-to-Sunday span and changes across the span boundary —
for any two instants within the same Monday–Sunday span (any day offsets
k₁, k₂ ≤ 6 from the span's Monday, at any times of day) the week ids
agree, and the week id of Sunday 23:59 differs from that of the following
Monday 00:00.  The year bounds keep the `%Y` field four digits, matching
CPython's formatting for all dates the program can see. -/
theorem c4_week_id_span (M : Date) (hV : M.Valid) (hW : pyWeekday M = 0)
    (hy1 : 1000 ≤ M.year) (hy2 : M.year + 7 ≤ 9999) :
    (∀ k₁ k₂ : Nat, k₁ ≤ 6 → k₂ ≤ 6 → ∀ h₁ mi₁ h₂ mi₂ : Nat,
      getWeekNumber ⟨addDays M k₁, h₁, mi₁⟩ = getWeekNumber ⟨addDays M k₂, h₂, mi₂⟩)
    ∧ getWeekNumber ⟨addDays M 6, 23, 59⟩ ≠ getWeekNumber ⟨addDays M 7, 0, 0⟩ := by
  have hGWN : ∀ (d : Date) (hh mi : Nat),
      getWeekNumber ⟨d, hh, mi⟩ = formatDate (subDays d (pyWeekday d)) :=
    fun _ _ _ => rfl
  have hsub0 : ∀ d : Date, subDays d 0 = d := fun _ => rfl
  have key : ∀ k : Nat, k ≤ 6 → ∀ hh mi : Nat,
      getWeekNumber ⟨addDays M k, hh, mi⟩ = formatDate M := by
    intro k hk hh mi
    rw [hGWN, pyWeekday_addDays M hV hW k hk, subDays_addDays M k hV]
  refine ⟨fun k₁ k₂ hk₁ hk₂ h₁ mi₁ h₂ mi₂ => by
    rw [key k₁ hk₁ h₁ mi₁, key k₂ hk₂ h₂ mi₂], ?_⟩
  rw [key 6 (by omega) 23 59, hGWN, pyWeekday_addDays_seven M hV hW, hsub0]
  intro hcontra
  have h7V : (addDays M 7).Valid := valid_addDays M 7 hV
  have hinj := formatDate_inj M (addDays M 7) (by omega)
    (le_trans (year_addDays_le M 7) (by omega))
    (by obtain ⟨_, _, hb, _, _⟩ := hV; omega)
    (by obtain ⟨_, _, hb, _, _⟩ := h7V; omega)
    (by
      obtain ⟨_, _, _, _, hb⟩ := hV
      have := daysInMonth_le M.year M.month
      omega)
    (by
      obtain ⟨_, _, _, _, hb⟩ := h7V
      have := daysInMonth_le (addDays M 7).year (addDays M 7).month
      omega)
    hcontra
  have hdfc := dfc_addDays M 7 hV
  rw [← hinj] at hdfc
  omega

/-- Witness for C4: the Monday 2024-01-01.  The id is constant from Monday
00:00 through Sunday 23:59 and changes at the following Monday 00:00. -/
theorem c4_week_id_span_witness :
    getWeekNumber ⟨addDays ⟨2024, 1, 1⟩ 0, 0, 0⟩
      = getWeekNumber ⟨addDays ⟨2024, 1, 1⟩ 6, 23, 59⟩
    ∧ getWeekNumber ⟨addDays ⟨2024, 1, 1⟩ 6, 23, 59⟩
      ≠ getWeekNumber ⟨addDays ⟨2024, 1, 1⟩ 7, 0, 0⟩ :=
  ⟨(c4_week_id_span ⟨2024, 1, 1⟩ (by unfold Date.Valid; decide) (by decide)
      (by decide) (by decide)).1 0 6 (by decide) (by decide) 0 0 23 59,
   (c4_week_id_span ⟨2024, 1, 1⟩ (by unfold Date.Valid; decide) (by decide)
      (by decide) (by decide)).2⟩

end Sambo
